import Mathlib

/-!
# SparkFun Swarm Satellite Arduino Library: verification development

A shallow embedding of `src/SparkFun_Swarm_Satellite_Arduino_Library.h`:
the command tag constants, the command result enumeration, the declared
transmit operations and the callback declarations, a model of the protocol
engine whose bodies the header only declares, and the packet length, receive
buffer and modem status declarations.
-/

namespace Swarm

/-! ## The command result enumeration (header lines 109 to 138) -/

/-- The command result, `Swarm_M138_Error_e`, enumerators in declaration order. -/
inductive Swarm_M138_Error_e
  | SWARM_M138_ERROR_ERROR
  | SWARM_M138_ERROR_SUCCESS
  | SWARM_M138_ERROR_TIMEOUT
  | SWARM_M138_ERROR_INVALID_CHECKSUM
  | SWARM_M138_ERROR_ERR
  | SWARM_M138_ERROR_MM_BADPARAM
  | SWARM_M138_ERROR_MM_DBXINVMSGID
  | SWARM_M138_ERROR_MM_DBXNOMORE
  | SWARM_M138_ERROR_MT_BADPARAM
  | SWARM_M138_ERROR_MT_DBXINVMSGID
  | SWARM_M138_ERROR_MT_DBXNOMORE
  | SWARM_M138_ERROR_SL_TIMENOTSET
  | SWARM_M138_ERROR_SL_BADPARAM
  | SWARM_M138_ERROR_SL_NOCOMMAND
  | SWARM_M138_ERROR_SL_NOTIME
  | SWARM_M138_ERROR_TD_BADAPPID
  | SWARM_M138_ERROR_TD_BADDATA
  | SWARM_M138_ERROR_TD_BADEXPIRETIME
  | SWARM_M138_ERROR_TD_ERR
  | SWARM_M138_ERROR_TD_HOLDTIMEEXPIRED
  | SWARM_M138_ERROR_TD_NODEVICEID
  | SWARM_M138_ERROR_TD_NOSPACE
  | SWARM_M138_ERROR_TD_TIMENOTSET
  | SWARM_M138_ERROR_TD_DBXTOHIVEFULL
  | SWARM_M138_ERROR_TD_TOOLONG
  deriving DecidableEq, Repr, Fintype

open Swarm_M138_Error_e

/-- The numeric value of an enumerator under the C rule: the first one is
given as `= 0`, every later one is its predecessor plus one. -/
def Swarm_M138_Error_e.value : Swarm_M138_Error_e → Nat
  | SWARM_M138_ERROR_ERROR => 0
  | SWARM_M138_ERROR_SUCCESS => 0 + 1
  | SWARM_M138_ERROR_TIMEOUT => 0 + 1 + 1
  | SWARM_M138_ERROR_INVALID_CHECKSUM => 0 + 1 + 1 + 1
  | SWARM_M138_ERROR_ERR => 3 + 1
  | SWARM_M138_ERROR_MM_BADPARAM => 4 + 1
  | SWARM_M138_ERROR_MM_DBXINVMSGID => 5 + 1
  | SWARM_M138_ERROR_MM_DBXNOMORE => 6 + 1
  | SWARM_M138_ERROR_MT_BADPARAM => 7 + 1
  | SWARM_M138_ERROR_MT_DBXINVMSGID => 8 + 1
  | SWARM_M138_ERROR_MT_DBXNOMORE => 9 + 1
  | SWARM_M138_ERROR_SL_TIMENOTSET => 10 + 1
  | SWARM_M138_ERROR_SL_BADPARAM => 11 + 1
  | SWARM_M138_ERROR_SL_NOCOMMAND => 12 + 1
  | SWARM_M138_ERROR_SL_NOTIME => 13 + 1
  | SWARM_M138_ERROR_TD_BADAPPID => 14 + 1
  | SWARM_M138_ERROR_TD_BADDATA => 15 + 1
  | SWARM_M138_ERROR_TD_BADEXPIRETIME => 16 + 1
  | SWARM_M138_ERROR_TD_ERR => 17 + 1
  | SWARM_M138_ERROR_TD_HOLDTIMEEXPIRED => 18 + 1
  | SWARM_M138_ERROR_TD_NODEVICEID => 19 + 1
  | SWARM_M138_ERROR_TD_NOSPACE => 20 + 1
  | SWARM_M138_ERROR_TD_TIMENOTSET => 21 + 1
  | SWARM_M138_ERROR_TD_DBXTOHIVEFULL => 22 + 1
  | SWARM_M138_ERROR_TD_TOOLONG => 23 + 1

/-- The alias `#define SWARM_M138_SUCCESS SWARM_M138_ERROR_SUCCESS`. -/
def SWARM_M138_SUCCESS : Swarm_M138_Error_e := SWARM_M138_ERROR_SUCCESS

/-- The enumerators that carry a vendor error code: every enumerator after
`SWARM_M138_ERROR_INVALID_CHECKSUM`, in declaration order. -/
def vendorErrorCodes : List Swarm_M138_Error_e :=
  [ SWARM_M138_ERROR_ERR,
    SWARM_M138_ERROR_MM_BADPARAM, SWARM_M138_ERROR_MM_DBXINVMSGID, SWARM_M138_ERROR_MM_DBXNOMORE,
    SWARM_M138_ERROR_MT_BADPARAM, SWARM_M138_ERROR_MT_DBXINVMSGID, SWARM_M138_ERROR_MT_DBXNOMORE,
    SWARM_M138_ERROR_SL_TIMENOTSET, SWARM_M138_ERROR_SL_BADPARAM, SWARM_M138_ERROR_SL_NOCOMMAND,
    SWARM_M138_ERROR_SL_NOTIME,
    SWARM_M138_ERROR_TD_BADAPPID, SWARM_M138_ERROR_TD_BADDATA, SWARM_M138_ERROR_TD_BADEXPIRETIME,
    SWARM_M138_ERROR_TD_ERR, SWARM_M138_ERROR_TD_HOLDTIMEEXPIRED, SWARM_M138_ERROR_TD_NODEVICEID,
    SWARM_M138_ERROR_TD_NOSPACE, SWARM_M138_ERROR_TD_TIMENOTSET, SWARM_M138_ERROR_TD_DBXTOHIVEFULL,
    SWARM_M138_ERROR_TD_TOOLONG ]

/-- The four enumerators that are not vendor codes. -/
def engineResults : List Swarm_M138_Error_e :=
  [ SWARM_M138_ERROR_ERROR, SWARM_M138_ERROR_SUCCESS, SWARM_M138_ERROR_TIMEOUT,
    SWARM_M138_ERROR_INVALID_CHECKSUM ]

/-! ## The command tag constants (header lines 90 to 107) -/

def SWARM_M138_COMMAND_CONFIGURATION : String := "$CS"
def SWARM_M138_COMMAND_DATE_TIME_STAT : String := "$DT"
def SWARM_M138_COMMAND_FIRMWARE_VER : String := "$FV"
def SWARM_M138_COMMAND_GPS_JAMMING : String := "$GJ"
def SWARM_M138_COMMAND_GEOSPATIAL_INFO : String := "$GN"
def SWARM_M138_COMMAND_GPIO1_CONTROL : String := "$GP"
def SWARM_M138_COMMAND_GPS_FIX_QUAL : String := "$GS"
def SWARM_M138_COMMAND_MSG_RX_MGMT : String := "$MM"
def SWARM_M138_COMMAND_MSG_TX_MGMT : String := "$MT"
def SWARM_M138_COMMAND_POWER_OFF : String := "$PO"
def SWARM_M138_COMMAND_POWER_STAT : String := "$PW"
def SWARM_M138_COMMAND_RX_DATA_MSG : String := "$RD"
def SWARM_M138_COMMAND_RESTART : String := "$RS"
def SWARM_M138_COMMAND_RX_TEST : String := "$RT"
def SWARM_M138_COMMAND_SLEEP : String := "$SL"
def SWARM_M138_COMMAND_MODEM_STAT : String := "$M138"
def SWARM_M138_COMMAND_TX_DATA : String := "$TD"

/-- Every `SWARM_M138_COMMAND_*` constant the header declares, in declaration order. -/
def declaredCommandTags : List String :=
  [ SWARM_M138_COMMAND_CONFIGURATION, SWARM_M138_COMMAND_DATE_TIME_STAT,
    SWARM_M138_COMMAND_FIRMWARE_VER, SWARM_M138_COMMAND_GPS_JAMMING,
    SWARM_M138_COMMAND_GEOSPATIAL_INFO, SWARM_M138_COMMAND_GPIO1_CONTROL,
    SWARM_M138_COMMAND_GPS_FIX_QUAL, SWARM_M138_COMMAND_MSG_RX_MGMT,
    SWARM_M138_COMMAND_MSG_TX_MGMT, SWARM_M138_COMMAND_POWER_OFF,
    SWARM_M138_COMMAND_POWER_STAT, SWARM_M138_COMMAND_RX_DATA_MSG,
    SWARM_M138_COMMAND_RESTART, SWARM_M138_COMMAND_RX_TEST,
    SWARM_M138_COMMAND_SLEEP, SWARM_M138_COMMAND_MODEM_STAT,
    SWARM_M138_COMMAND_TX_DATA ]

/-- The closed set of tags as the specification lists it (data model, Tag), in the
specification's order. -/
def specTags : List String :=
  [ "$CS", "$DT", "$FV", "$GJ", "$GN", "$GP", "$GS", "$MM", "$MT", "$PO", "$PW", "$RD",
    "$RS", "$RT", "$SL", "$M138", "$TD" ]

/-! ## The error taxonomy -/

/-- The error taxonomy in the words of the specification (error handling design):
`ProtocolError` has one variant per vendor code. -/
inductive ErrorKind
  | CommunicationError
  | Timeout
  | ChecksumInvalid
  | ProtocolError (code : Swarm_M138_Error_e)
  | FramingError
  | Reentrancy
  deriving DecidableEq, Repr

/-- The kinds of the taxonomy, `ProtocolError` ranging over the vendor codes. -/
def specErrorKinds : List ErrorKind :=
  [ErrorKind.CommunicationError, ErrorKind.Timeout, ErrorKind.ChecksumInvalid]
    ++ vendorErrorCodes.map ErrorKind.ProtocolError
    ++ [ErrorKind.FramingError, ErrorKind.Reentrancy]

/-- The kind of error an enumerator stands for, read off the enumerator's own
comment in the header: `ERROR` is "Just a plain old communication error",
`SUCCESS` is no error, `TIMEOUT` is "Communication timeout", `INVALID_CHECKSUM`
"Indicates the command response checksum was invalid", and every later
enumerator is the vendor code it names. -/
def Swarm_M138_Error_e.kind : Swarm_M138_Error_e → Option ErrorKind
  | SWARM_M138_ERROR_ERROR => some ErrorKind.CommunicationError
  | SWARM_M138_ERROR_SUCCESS => none
  | SWARM_M138_ERROR_TIMEOUT => some ErrorKind.Timeout
  | SWARM_M138_ERROR_INVALID_CHECKSUM => some ErrorKind.ChecksumInvalid
  | e => some (ErrorKind.ProtocolError e)

/-! ## The declared transmit operations (header lines 344 to 357) -/

/-- A parameter of a declared member function: its C type and its name. -/
structure Param where
  ctype : String
  name : String
  deriving DecidableEq, Repr

/-- A declared member function: its name and its parameters, in order. -/
structure Declaration where
  name : String
  params : List Param
  deriving DecidableEq, Repr

/-- The twelve `transmit*` member functions, in declaration order. -/
def transmitDeclarations : List Declaration :=
  [ ⟨"transmitText", [⟨"char *", "data"⟩, ⟨"uint64_t *", "id"⟩]⟩,
    ⟨"transmitText", [⟨"char *", "data"⟩, ⟨"uint64_t *", "id"⟩, ⟨"uint16_t", "appID"⟩]⟩,
    ⟨"transmitTextHold", [⟨"char *", "data"⟩, ⟨"uint64_t *", "id"⟩, ⟨"uint32_t", "hold"⟩]⟩,
    ⟨"transmitTextHold",
      [⟨"char *", "data"⟩, ⟨"uint64_t *", "id"⟩, ⟨"uint32_t", "hold"⟩, ⟨"uint16_t", "appID"⟩]⟩,
    ⟨"transmitTextExpire", [⟨"char *", "data"⟩, ⟨"uint64_t *", "id"⟩, ⟨"uint32_t", "epoch"⟩]⟩,
    ⟨"transmitTextExpire",
      [⟨"char *", "data"⟩, ⟨"uint64_t *", "id"⟩, ⟨"uint32_t", "epoch"⟩, ⟨"uint16_t", "appID"⟩]⟩,
    ⟨"transmitBinary", [⟨"char *", "data"⟩, ⟨"size_t", "len"⟩, ⟨"uint64_t *", "id"⟩]⟩,
    ⟨"transmitBinary",
      [⟨"char *", "data"⟩, ⟨"size_t", "len"⟩, ⟨"uint64_t *", "id"⟩, ⟨"uint16_t", "appID"⟩]⟩,
    ⟨"transmitBinaryHold",
      [⟨"char *", "data"⟩, ⟨"size_t", "len"⟩, ⟨"uint64_t *", "id"⟩, ⟨"uint32_t", "hold"⟩]⟩,
    ⟨"transmitBinaryHold",
      [⟨"char *", "data"⟩, ⟨"size_t", "len"⟩, ⟨"uint64_t *", "id"⟩, ⟨"uint32_t", "hold"⟩,
       ⟨"uint16_t", "appID"⟩]⟩,
    ⟨"transmitBinaryExpire",
      [⟨"char *", "data"⟩, ⟨"size_t", "len"⟩, ⟨"uint64_t *", "id"⟩, ⟨"uint32_t", "epoch"⟩]⟩,
    ⟨"transmitBinaryExpire",
      [⟨"char *", "data"⟩, ⟨"size_t", "len"⟩, ⟨"uint64_t *", "id"⟩, ⟨"uint32_t", "epoch"⟩,
       ⟨"uint16_t", "appID"⟩]⟩ ]

/-- Text or binary payload of a transmit operation. -/
inductive TxPayload
  | Text
  | Binary
  deriving DecidableEq, Repr

/-- The lifetime option of a transmit operation. -/
inductive TxOption
  | NoOption
  | Hold
  | Expire
  deriving DecidableEq, Repr

/-- The operation takes a hold duration: a `uint32_t hold` parameter. -/
def Declaration.acceptsHold (d : Declaration) : Bool :=
  d.params.contains ⟨"uint32_t", "hold"⟩

/-- The operation takes an expiry epoch: a `uint32_t epoch` parameter. -/
def Declaration.acceptsExpiry (d : Declaration) : Bool :=
  d.params.contains ⟨"uint32_t", "epoch"⟩

/-- The operation takes an application ID: a `uint16_t appID` parameter. -/
def Declaration.acceptsAppID (d : Declaration) : Bool :=
  d.params.contains ⟨"uint16_t", "appID"⟩

/-- The operation sends binary data: it takes a `size_t len` next to the data pointer. -/
def Declaration.payload (d : Declaration) : TxPayload :=
  if d.params.contains ⟨"size_t", "len"⟩ then TxPayload.Binary else TxPayload.Text

/-- The lifetime option an operation accepts, read off its parameters; `none` when it
takes both a hold duration and an expiry epoch. -/
def Declaration.option (d : Declaration) : Option TxOption :=
  match d.acceptsHold, d.acceptsExpiry with
  | false, false => some TxOption.NoOption
  | true, false => some TxOption.Hold
  | false, true => some TxOption.Expire
  | true, true => none

/-- The name the header's naming scheme gives to a payload and option pair. -/
def transmitName (p : TxPayload) (o : TxOption) : String :=
  "transmit"
    ++ (match p with
        | TxPayload.Text => "Text"
        | TxPayload.Binary => "Binary")
    ++ (match o with
        | TxOption.NoOption => ""
        | TxOption.Hold => "Hold"
        | TxOption.Expire => "Expire")

/-- The twelve variants: payload, option, with or without application ID. -/
def transmitVariants : List (TxPayload × TxOption × Bool) :=
  [ (TxPayload.Text, TxOption.NoOption, false), (TxPayload.Text, TxOption.NoOption, true),
    (TxPayload.Text, TxOption.Hold, false), (TxPayload.Text, TxOption.Hold, true),
    (TxPayload.Text, TxOption.Expire, false), (TxPayload.Text, TxOption.Expire, true),
    (TxPayload.Binary, TxOption.NoOption, false), (TxPayload.Binary, TxOption.NoOption, true),
    (TxPayload.Binary, TxOption.Hold, false), (TxPayload.Binary, TxOption.Hold, true),
    (TxPayload.Binary, TxOption.Expire, false), (TxPayload.Binary, TxOption.Expire, true) ]

/-- The variant of a declared transmit operation, when its name agrees with its
parameters. -/
def Declaration.variant (d : Declaration) : Option (TxPayload × TxOption × Bool) :=
  match d.option with
  | none => none
  | some o => if d.name = transmitName d.payload o then some (d.payload, o, d.acceptsAppID) else none

/-- The application IDs open to applications: "Valid appID's are: 0 to 64999". -/
def validAppID (appID : Nat) : Bool := decide (appID ≤ 64999)

/-- The application IDs the vendor keeps: "Swarm reserves use of 65000 - 65535". -/
def reservedAppID (appID : Nat) : Bool := decide (65000 ≤ appID) && decide (appID ≤ 65535)

/-! ## The callback declarations (header lines 362 to 372 and 407 to 418) -/

/-- A function pointer declarator `void (*name)(params)`. -/
structure CallbackDecl where
  name : String
  params : List Param
  deriving DecidableEq, Repr

/-- A `set*Callback` member function: its name and its function pointer parameter. -/
structure SetterDecl where
  name : String
  callback : CallbackDecl
  deriving DecidableEq, Repr

/-- The ten `set*Callback` member functions, in declaration order. -/
def callbackSetters : List SetterDecl :=
  [ ⟨"setDateTimeCallback",
      ⟨"_swarmDateTimeCallback", [⟨"const Swarm_M138_DateTimeData_t *", "dateTime"⟩]⟩⟩,
    ⟨"setGpsJammingCallback",
      ⟨"_swarmGpsJammingCallback", [⟨"const Swarm_M138_GPS_Jamming_Indication_t *", "jamming"⟩]⟩⟩,
    ⟨"setGeospatialInfoCallback",
      ⟨"_swarmGeospatialCallback", [⟨"const Swarm_M138_GeospatialData_t *", "info"⟩]⟩⟩,
    ⟨"setGpsFixQualityCallback",
      ⟨"_swarmGpsFixQualityCallback", [⟨"const Swarm_M138_GPS_Fix_Quality_t *", "fixQuality"⟩]⟩⟩,
    ⟨"setPowerStatusCallback",
      ⟨"_swarmPowerStatusCallback", [⟨"const Swarm_M138_Power_Status_t *", "status"⟩]⟩⟩,
    ⟨"setReceiveMessageCallback",
      ⟨"_swarmReceiveMessageCallback",
        [⟨"const uint16_t *", "appID"⟩, ⟨"const int16_t *", "rssi"⟩, ⟨"const int16_t *", "snr"⟩,
         ⟨"const int16_t *", "fdev"⟩, ⟨"const char *", "asciiHex"⟩]⟩⟩,
    ⟨"setReceiveTestCallback",
      ⟨"_swarmReceiveTestCallback", [⟨"const Swarm_M138_Receive_Test_t *", "rxTest"⟩]⟩⟩,
    ⟨"setSleepWakeCallback",
      ⟨"_swramSleepWakeCallback", [⟨"Swarm_M138_Wake_Cause_e", "cause"⟩]⟩⟩,
    ⟨"setModemStatusCallback",
      ⟨"_swarmModemStatusCallback",
        [⟨"Swarm_M138_Modem_Status_e", "status"⟩, ⟨"const char *", "data"⟩]⟩⟩,
    ⟨"setTransmitDataCallback",
      ⟨"_swarmTransmitDataCallback",
        [⟨"const uint16_t *", "rssi_sat"⟩, ⟨"const uint16_t *", "snr"⟩,
         ⟨"const uint16_t *", "fdev"⟩, ⟨"uint64_t *", "id"⟩]⟩⟩ ]

/-- The private callback members under "Callbacks for unsolicited messages", every
declaration of lines 408 to 418 in order. -/
def callbackFields : List CallbackDecl :=
  [ ⟨"_swarmDateTimeCallback", [⟨"Swarm_M138_DateTimeData_t *", "dateTime"⟩]⟩,
    ⟨"_swarmDateTimeCallback", [⟨"const Swarm_M138_DateTimeData_t *", "dateTime"⟩]⟩,
    ⟨"_swarmGpsJammingCallback", [⟨"const Swarm_M138_GPS_Jamming_Indication_t *", "jamming"⟩]⟩,
    ⟨"_swarmGeospatialCallback", [⟨"const Swarm_M138_GeospatialData_t *", "info"⟩]⟩,
    ⟨"_swarmGpsFixQualityCallback", [⟨"const Swarm_M138_GPS_Fix_Quality_t *", "fixQuality"⟩]⟩,
    ⟨"_swarmPowerStatusCallback", [⟨"const Swarm_M138_Power_Status_t *", "status"⟩]⟩,
    ⟨"_swarmReceiveMessageCallback",
      [⟨"const uint16_t *", "appID"⟩, ⟨"const int16_t *", "rssi"⟩, ⟨"const int16_t *", "snr"⟩,
       ⟨"const int16_t *", "fdev"⟩, ⟨"const char *", "asciiHex"⟩]⟩,
    ⟨"_swarmReceiveTestCallback", [⟨"const Swarm_M138_Receive_Test_t *", "rxTest"⟩]⟩,
    ⟨"_swramSleepWakeCallback", [⟨"Swarm_M138_Wake_Cause_e", "cause"⟩]⟩,
    ⟨"_swarmModemStatusCallback",
      [⟨"Swarm_M138_Modem_Status_e", "status"⟩, ⟨"const char *", "data"⟩]⟩,
    ⟨"_swarmTransmitDataCallback",
      [⟨"const uint16_t *", "rssi_sat"⟩, ⟨"const uint16_t *", "snr"⟩,
       ⟨"const uint16_t *", "fdev"⟩, ⟨"uint64_t *", "id"⟩]⟩ ]

/-- The callback members a setter corresponds to: those declared under the name of
the setter's parameter. -/
def fieldsOf (setter : SetterDecl) : List CallbackDecl :=
  callbackFields.filter (fun f => f.name = setter.callback.name)

/-! ## The protocol engine

The header declares the engine (`checkUnsolicitedMsg`, `sendCommandWithResponse`,
`waitForResponse`, `sendCommand`, `processUnsolicitedEvent`, `pruneBacklog`, the
setters) and its private state, but holds none of the bodies. The state below has
the members of the header; every operation is modelled from the component design
of the specification (Line Reader, Frame Validator, Command/Response Correlator,
Unsolicited Dispatcher, Backlog Manager) and says so in its comment.

Two readings are fixed here. The Line Reader is taken at its interface: what each
pull returns is given by the transport. And of the two things the specification
says about an unsolicited line met while a command waits (handed to the
Dispatcher, stashed in the backlog for the Dispatcher to replay), the backlog is
the one modelled: the header has the callbacks "called by checkUnsolicitedMsg",
and the backlog ordering property of the specification depends on it. -/

/-- A line as the Line Reader hands it over: the characters up to the terminator. -/
abbrev Line := List Char

/-- The ten unsolicited tag categories, one per `set*Callback`. -/
inductive Category
  | DateTime
  | GpsJamming
  | Geospatial
  | GpsFixQuality
  | PowerStatus
  | ReceiveMessage
  | ReceiveTest
  | SleepWake
  | ModemStatus
  | TransmitData
  deriving DecidableEq, Repr

/-- The category a tag's unsolicited lines belong to, after the setters' comments
("Set callback for $DT", ..., "Set callback for $TD SENT"). -/
def unsolicitedCategory (tag : String) : Option Category :=
  if tag = SWARM_M138_COMMAND_DATE_TIME_STAT then some Category.DateTime
  else if tag = SWARM_M138_COMMAND_GPS_JAMMING then some Category.GpsJamming
  else if tag = SWARM_M138_COMMAND_GEOSPATIAL_INFO then some Category.Geospatial
  else if tag = SWARM_M138_COMMAND_GPS_FIX_QUAL then some Category.GpsFixQuality
  else if tag = SWARM_M138_COMMAND_POWER_STAT then some Category.PowerStatus
  else if tag = SWARM_M138_COMMAND_RX_DATA_MSG then some Category.ReceiveMessage
  else if tag = SWARM_M138_COMMAND_RX_TEST then some Category.ReceiveTest
  else if tag = SWARM_M138_COMMAND_SLEEP then some Category.SleepWake
  else if tag = SWARM_M138_COMMAND_MODEM_STAT then some Category.ModemStatus
  else if tag = SWARM_M138_COMMAND_TX_DATA then some Category.TransmitData
  else none

/-- Modelled from the spec: the parts of the wire protocol the specification leaves
to the vendor documentation and that the header does not hold: the checksum
function ("a pluggable function"), whether the parser of a category accepts a
payload, and the fixed capacity of the backlog. -/
structure Protocol where
  checksum : List Char → Nat
  parses : Category → List Char → Bool
  backlogCapacity : Nat

/-- Modelled from the spec: the NMEA-style checksum the specification names, the XOR
of the bytes between the dollar sign and the asterisk. -/
def nmeaChecksum (body : List Char) : Nat :=
  body.foldl (fun acc c => acc ^^^ (c.toNat % 256)) 0

/-- The value of an uppercase hexadecimal digit. -/
def hexDigitValue (c : Char) : Option Nat :=
  if 48 ≤ c.toNat ∧ c.toNat ≤ 57 then some (c.toNat - 48)
  else if 65 ≤ c.toNat ∧ c.toNat ≤ 70 then some (c.toNat - 65 + 10)
  else none

/-- The value of two uppercase hexadecimal digits. -/
def hexByte (d1 d2 : Char) : Option Nat :=
  match hexDigitValue d1, hexDigitValue d2 with
  | some a, some b => some (16 * a + b)
  | _, _ => none

/-- The uppercase hexadecimal digit of a value below 16. -/
def hexDigitChar (n : Nat) : Char :=
  if n < 10 then Char.ofNat (48 + n) else Char.ofNat (55 + n)

/-- The outcome of the Frame Validator. -/
inductive Validation
  | tagged (tag : String) (payload : List Char)
  | checksumInvalid
  | unrecognized
  deriving DecidableEq, Repr

/-- The tag of the table the line starts with, if any. -/
def recognizedTag (line : Line) : Option String :=
  declaredCommandTags.find? (fun t => t.toList.isPrefixOf line)

/-- The bytes between the dollar sign and the first asterisk. -/
def checksumBody (line : Line) : List Char :=
  line.tail.takeWhile (fun c => c != '*')

/-- The first asterisk and what follows it; empty when the line has no asterisk. -/
def checksumField (line : Line) : List Char :=
  line.tail.dropWhile (fun c => c != '*')

/-- Modelled from the spec: the Frame Validator `validate`, whose body is not in the
header. A line without a recognized tag is unrecognized; a checksum, if present,
follows the asterisk as two hex digits and must equal the checksum of the bytes
between the dollar sign and the asterisk. -/
def validate (checksum : List Char → Nat) (line : Line) : Validation :=
  match recognizedTag line with
  | none => Validation.unrecognized
  | some tag =>
    let payload := (checksumBody line).drop (tag.length - 1)
    match checksumField line with
    | [] => Validation.tagged tag payload
    | [_, d1, d2] =>
      if hexByte d1 d2 = some (checksum (checksumBody line)) then Validation.tagged tag payload
      else Validation.checksumInvalid
    | _ => Validation.checksumInvalid

/-- Modelled from the spec: a `ModemEvent`, an unsolicited event after parsing: its
category and the validated payload its fields are decoded from (the field
grammars of the tags are left to `Protocol.parses`). -/
structure ModemEvent where
  category : Category
  payload : List Char
  deriving DecidableEq, Repr

/-- Modelled from the spec: what an observer does while it runs, as far as the engine
is concerned: it calls `checkUnsolicitedMsg` again (the nested call of the
re-entrancy guard), or it does something that does not touch the engine. -/
inductive UserCall
  | checkUnsolicitedMsg
  | other
  deriving DecidableEq, Repr

/-- An observer, the value of a callback member: the calls it makes, in order, when it
is handed an event. -/
abbrev Observer := ModemEvent → List UserCall

/-- Modelled from the spec: a `BacklogEntry`, a retained line (its arrival order is its
position in the backlog) and whether it has been consumed and waits for the
pruning pass. -/
structure BacklogEntry where
  line : Line
  consumed : Bool
  deriving DecidableEq, Repr

/-- A record of an observer invocation: the line it came from and the event handed
over. -/
structure Dispatch where
  line : Line
  event : ModemEvent
  deriving DecidableEq, Repr

/-- The engine state: the re-entry flag, the three buffers and the ten callback
members of the header under their names (the header's `char *` buffers hold a
line, respectively the entries of the backlog), followed by the bookkeeping of
the model: how many times the Line Reader was pulled, the command lines written,
the observer invocations so far, the backlog loss count. -/
structure SWARM_M138 where
  _checkUnsolicitedMsgReentrant : Bool
  _swarmRxBuffer : Line
  _pruneBuffer : List BacklogEntry
  _swarmBacklog : List BacklogEntry
  _swarmDateTimeCallback : Option Observer
  _swarmGpsJammingCallback : Option Observer
  _swarmGeospatialCallback : Option Observer
  _swarmGpsFixQualityCallback : Option Observer
  _swarmPowerStatusCallback : Option Observer
  _swarmReceiveMessageCallback : Option Observer
  _swarmReceiveTestCallback : Option Observer
  _swramSleepWakeCallback : Option Observer
  _swarmModemStatusCallback : Option Observer
  _swarmTransmitDataCallback : Option Observer
  linesRead : Nat
  written : List Line
  dispatched : List Dispatch
  lossCount : Nat

/-- The state after construction. `_checkUnsolicitedMsgReentrant = false` is the member
initializer of the header; the constructor is declared without a body, and the
buffers are taken empty and the observers unset. -/
def SWARM_M138.new : SWARM_M138 :=
  { _checkUnsolicitedMsgReentrant := false
    _swarmRxBuffer := []
    _pruneBuffer := []
    _swarmBacklog := []
    _swarmDateTimeCallback := none
    _swarmGpsJammingCallback := none
    _swarmGeospatialCallback := none
    _swarmGpsFixQualityCallback := none
    _swarmPowerStatusCallback := none
    _swarmReceiveMessageCallback := none
    _swarmReceiveTestCallback := none
    _swramSleepWakeCallback := none
    _swarmModemStatusCallback := none
    _swarmTransmitDataCallback := none
    linesRead := 0
    written := []
    dispatched := []
    lossCount := 0 }

/-- The observer registered for a category. -/
def SWARM_M138.callback (s : SWARM_M138) : Category → Option Observer
  | Category.DateTime => s._swarmDateTimeCallback
  | Category.GpsJamming => s._swarmGpsJammingCallback
  | Category.Geospatial => s._swarmGeospatialCallback
  | Category.GpsFixQuality => s._swarmGpsFixQualityCallback
  | Category.PowerStatus => s._swarmPowerStatusCallback
  | Category.ReceiveMessage => s._swarmReceiveMessageCallback
  | Category.ReceiveTest => s._swarmReceiveTestCallback
  | Category.SleepWake => s._swramSleepWakeCallback
  | Category.ModemStatus => s._swarmModemStatusCallback
  | Category.TransmitData => s._swarmTransmitDataCallback

/-- Modelled from the spec: the body of `setDateTimeCallback`, absent from the
header; re-registering replaces the previous observer. -/
def setDateTimeCallback (s : SWARM_M138) (cb : Option Observer) : SWARM_M138 :=
  { s with _swarmDateTimeCallback := cb }

/-- Modelled from the spec: the body of `setGpsJammingCallback`, absent from the
header; re-registering replaces the previous observer. -/
def setGpsJammingCallback (s : SWARM_M138) (cb : Option Observer) : SWARM_M138 :=
  { s with _swarmGpsJammingCallback := cb }

/-- Modelled from the spec: the body of `setGeospatialInfoCallback`, absent from the
header; re-registering replaces the previous observer. -/
def setGeospatialInfoCallback (s : SWARM_M138) (cb : Option Observer) : SWARM_M138 :=
  { s with _swarmGeospatialCallback := cb }

/-- Modelled from the spec: the body of `setGpsFixQualityCallback`, absent from the
header; re-registering replaces the previous observer. -/
def setGpsFixQualityCallback (s : SWARM_M138) (cb : Option Observer) : SWARM_M138 :=
  { s with _swarmGpsFixQualityCallback := cb }

/-- Modelled from the spec: the body of `setPowerStatusCallback`, absent from the
header; re-registering replaces the previous observer. -/
def setPowerStatusCallback (s : SWARM_M138) (cb : Option Observer) : SWARM_M138 :=
  { s with _swarmPowerStatusCallback := cb }

/-- Modelled from the spec: the body of `setReceiveMessageCallback`, absent from the
header; re-registering replaces the previous observer. -/
def setReceiveMessageCallback (s : SWARM_M138) (cb : Option Observer) : SWARM_M138 :=
  { s with _swarmReceiveMessageCallback := cb }

/-- Modelled from the spec: the body of `setReceiveTestCallback`, absent from the
header; re-registering replaces the previous observer. -/
def setReceiveTestCallback (s : SWARM_M138) (cb : Option Observer) : SWARM_M138 :=
  { s with _swarmReceiveTestCallback := cb }

/-- Modelled from the spec: the body of `setSleepWakeCallback`, absent from the
header; re-registering replaces the previous observer. -/
def setSleepWakeCallback (s : SWARM_M138) (cb : Option Observer) : SWARM_M138 :=
  { s with _swramSleepWakeCallback := cb }

/-- Modelled from the spec: the body of `setModemStatusCallback`, absent from the
header; re-registering replaces the previous observer. -/
def setModemStatusCallback (s : SWARM_M138) (cb : Option Observer) : SWARM_M138 :=
  { s with _swarmModemStatusCallback := cb }

/-- Modelled from the spec: the body of `setTransmitDataCallback`, absent from the
header; re-registering replaces the previous observer. -/
def setTransmitDataCallback (s : SWARM_M138) (cb : Option Observer) : SWARM_M138 :=
  { s with _swarmTransmitDataCallback := cb }

/-- Modelled from the spec: the transport and the Line Reader on top of it, as the
engine sees them. `pollLine k` is what the k-th pull of the Line Reader returns
(`none` when nothing is available) and `nowMillis k` is the reading of the
millisecond clock at that pull. -/
structure Transport where
  pollLine : Nat → Option Line
  nowMillis : Nat → Nat

/-! ### Backlog Manager -/

/-- Modelled from the spec: `pruneBacklog`, declared in the header without a body:
the pruning pass copies the entries not yet consumed into the prune buffer and
makes them the backlog, discarding the consumed ones. -/
def pruneBacklog (s : SWARM_M138) : SWARM_M138 :=
  let kept := s._swarmBacklog.filter (fun e => !e.consumed)
  { s with _pruneBuffer := kept, _swarmBacklog := kept }

/-- Modelled from the spec: `offer` of the Backlog Manager, a bounded queue: on a
full backlog the oldest entry is evicted and the loss counted before the new line
is inserted. -/
def offer (P : Protocol) (line : Line) (s : SWARM_M138) : SWARM_M138 :=
  if s._swarmBacklog.length < P.backlogCapacity then
    { s with _swarmBacklog := s._swarmBacklog ++ [⟨line, false⟩] }
  else
    { s with _swarmBacklog := s._swarmBacklog.tail ++ [⟨line, false⟩],
             lossCount := s.lossCount + 1 }

/-- Modelled from the spec: `takeOldest` of the Backlog Manager: the oldest entry is
consumed and pruned away. -/
def takeOldest (s : SWARM_M138) : Option (Line × SWARM_M138) :=
  match s._swarmBacklog with
  | [] => none
  | e :: rest =>
    some (e.line, pruneBacklog { s with _swarmBacklog := { e with consumed := true } :: rest })

/-- Marks as consumed the oldest entry that satisfies `p` and returns its line. -/
def markFirst (p : Line → Bool) : List BacklogEntry → Option (Line × List BacklogEntry)
  | [] => none
  | e :: rest =>
    if p e.line then some (e.line, { e with consumed := true } :: rest)
    else
      match markFirst p rest with
      | none => none
      | some (l, rest2) => some (l, e :: rest2)

/-! ### Command/Response Correlator -/

/-- The text after the last comma of a payload (the whole payload when it has none). -/
def lastField (payload : List Char) : List Char :=
  (payload.reverse.takeWhile (fun c => c != ',')).reverse

/-- The vendor codes by tag and code name, as the enumerators name them:
`SWARM_M138_ERROR_<TAG>_<CODE>`. -/
def vendorErrorTable : List (String × String × Swarm_M138_Error_e) :=
  [ ("$MM", "BADPARAM", SWARM_M138_ERROR_MM_BADPARAM),
    ("$MM", "DBXINVMSGID", SWARM_M138_ERROR_MM_DBXINVMSGID),
    ("$MM", "DBXNOMORE", SWARM_M138_ERROR_MM_DBXNOMORE),
    ("$MT", "BADPARAM", SWARM_M138_ERROR_MT_BADPARAM),
    ("$MT", "DBXINVMSGID", SWARM_M138_ERROR_MT_DBXINVMSGID),
    ("$MT", "DBXNOMORE", SWARM_M138_ERROR_MT_DBXNOMORE),
    ("$SL", "TIMENOTSET", SWARM_M138_ERROR_SL_TIMENOTSET),
    ("$SL", "BADPARAM", SWARM_M138_ERROR_SL_BADPARAM),
    ("$SL", "NOCOMMAND", SWARM_M138_ERROR_SL_NOCOMMAND),
    ("$SL", "NOTIME", SWARM_M138_ERROR_SL_NOTIME),
    ("$TD", "BADAPPID", SWARM_M138_ERROR_TD_BADAPPID),
    ("$TD", "BADDATA", SWARM_M138_ERROR_TD_BADDATA),
    ("$TD", "BADEXPIRETIME", SWARM_M138_ERROR_TD_BADEXPIRETIME),
    ("$TD", "ERR", SWARM_M138_ERROR_TD_ERR),
    ("$TD", "HOLDTIMEEXPIRED", SWARM_M138_ERROR_TD_HOLDTIMEEXPIRED),
    ("$TD", "NODEVICEID", SWARM_M138_ERROR_TD_NODEVICEID),
    ("$TD", "NOSPACE", SWARM_M138_ERROR_TD_NOSPACE),
    ("$TD", "TIMENOTSET", SWARM_M138_ERROR_TD_TIMENOTSET),
    ("$TD", "DBXTOHIVEFULL", SWARM_M138_ERROR_TD_DBXTOHIVEFULL),
    ("$TD", "TOOLONG", SWARM_M138_ERROR_TD_TOOLONG) ]

/-- Modelled from the spec: the named error code an error line carries in its payload,
taken as the last field of the payload; the plain command input error `ERR` when
the field names no code of the line's tag. -/
def vendorError (tag : String) (payload : List Char) : Swarm_M138_Error_e :=
  match vendorErrorTable.find? (fun r => r.1 = tag && r.2.1.toList = lastField payload) with
  | some r => r.2.2
  | none => SWARM_M138_ERROR_ERR

/-- What a line is to a pending command. -/
inductive Correlation
  | response (payload : List Char)
  | error (code : Swarm_M138_Error_e)
  | checksumInvalid
  | unsolicited
  | other
  deriving DecidableEq, Repr

/-- Modelled from the spec: the classification step of the Correlator: the line is run
through the Frame Validator and matched against the expected response text, then
the expected error text, then the unsolicited tags. -/
def correlate (P : Protocol) (expectedResponse expectedError : List Char) (line : Line) :
    Correlation :=
  match validate P.checksum line with
  | Validation.checksumInvalid => Correlation.checksumInvalid
  | Validation.unrecognized => Correlation.other
  | Validation.tagged tag payload =>
    if expectedResponse.isPrefixOf line then Correlation.response payload
    else if expectedError.isPrefixOf line then Correlation.error (vendorError tag payload)
    else if (unsolicitedCategory tag).isSome then Correlation.unsolicited
    else Correlation.other

/-- The line answers the pending command, as its response or as its error. -/
def answers (P : Protocol) (expectedResponse expectedError : List Char) (line : Line) : Bool :=
  match correlate P expectedResponse expectedError line with
  | Correlation.response _ => true
  | Correlation.error _ => true
  | _ => false

/-- The result of a command: the `Swarm_M138_Error_e` the C function returns and, on
success, the response line together with its parsed payload. -/
structure CommandResult where
  error : Swarm_M138_Error_e
  response : Option (Line × List Char)
  deriving DecidableEq, Repr

/-- The result a line that answers the command gives. -/
def answerResult (P : Protocol) (expectedResponse expectedError : List Char) (line : Line) :
    CommandResult :=
  match correlate P expectedResponse expectedError line with
  | Correlation.response payload => ⟨SWARM_M138_ERROR_SUCCESS, some (line, payload)⟩
  | Correlation.error code => ⟨code, none⟩
  | Correlation.checksumInvalid => ⟨SWARM_M138_ERROR_INVALID_CHECKSUM, none⟩
  | _ => ⟨SWARM_M138_ERROR_ERROR, none⟩

/-- Standard command timeout: `#define SWARM_M138_STANDARD_RESPONSE_TIMEOUT 1000`. -/
def SWARM_M138_STANDARD_RESPONSE_TIMEOUT : Nat := 1000

/-- Modelled from the spec: the polling loop of the Correlator, whose body is not in
the header. Each round first looks in the backlog for an already buffered answer,
then pulls a line: a response succeeds, an error line fails with its vendor code,
an invalid checksum is surfaced to the waiting command, an unsolicited line is
stashed in the backlog for the Dispatcher; after that the round fails with a
timeout when the elapsed time `now - start` exceeds `timeout`. Time is in
milliseconds and unbounded. The argument before the state bounds the number of
rounds; `none` means the bound was reached. -/
def waitLoop (P : Protocol) (T : Transport) (expectedResponse expectedError : List Char)
    (start timeout : Nat) : Nat → SWARM_M138 → Option (CommandResult × SWARM_M138)
  | 0, _ => none
  | fuel + 1, s =>
    match markFirst (answers P expectedResponse expectedError) s._swarmBacklog with
    | some (line, backlog) =>
      some (answerResult P expectedResponse expectedError line,
            { pruneBacklog { s with _swarmBacklog := backlog } with _swarmRxBuffer := line })
    | none =>
      let now := T.nowMillis s.linesRead
      let s1 := { s with linesRead := s.linesRead + 1 }
      match T.pollLine s.linesRead with
      | none =>
        if now - start > timeout then some (⟨SWARM_M138_ERROR_TIMEOUT, none⟩, s1)
        else waitLoop P T expectedResponse expectedError start timeout fuel s1
      | some line =>
        let s2 := { s1 with _swarmRxBuffer := line }
        match correlate P expectedResponse expectedError line with
        | Correlation.response payload =>
          some (⟨SWARM_M138_ERROR_SUCCESS, some (line, payload)⟩, s2)
        | Correlation.error code => some (⟨code, none⟩, s2)
        | Correlation.checksumInvalid => some (⟨SWARM_M138_ERROR_INVALID_CHECKSUM, none⟩, s2)
        | Correlation.unsolicited =>
          if now - start > timeout then some (⟨SWARM_M138_ERROR_TIMEOUT, none⟩, offer P line s2)
          else waitLoop P T expectedResponse expectedError start timeout fuel (offer P line s2)
        | Correlation.other =>
          if now - start > timeout then some (⟨SWARM_M138_ERROR_TIMEOUT, none⟩, s2)
          else waitLoop P T expectedResponse expectedError start timeout fuel s2

/-- Modelled from the spec: `sendCommand`: the command line is written to the transport
with the checksum of the engine appended. -/
def sendCommand (P : Protocol) (command : Line) (s : SWARM_M138) : SWARM_M138 :=
  let cs := P.checksum command.tail
  { s with written :=
      s.written ++ [command ++ [ '*', hexDigitChar (cs / 16 % 16), hexDigitChar (cs % 16)]] }

/-- Modelled from the spec: `waitForResponse` ("don't send a command"): the polling
loop from the current clock reading; the header gives its timeout the type
`uint16_t`. -/
def waitForResponse (P : Protocol) (T : Transport) (expectedResponse expectedError : List Char)
    (timeout : Nat) (fuel : Nat) (s : SWARM_M138) : Option (CommandResult × SWARM_M138) :=
  waitLoop P T expectedResponse expectedError (T.nowMillis s.linesRead) (timeout % 65536) fuel s

/-- Modelled from the spec: `sendCommandWithResponse`: the command is sent, the clock
is read, and the polling loop runs with the command timeout. -/
def sendCommandWithResponse (P : Protocol) (T : Transport) (command : Line)
    (expectedResponse expectedError : List Char) (commandTimeout : Nat)
    (fuel : Nat) (s : SWARM_M138) : Option (CommandResult × SWARM_M138) :=
  let s1 := sendCommand P command s
  waitLoop P T expectedResponse expectedError (T.nowMillis s1.linesRead) commandTimeout fuel s1

/-! ### Unsolicited Dispatcher -/

/-- Runs the calls an observer makes, in order; `nested` is what a call of
`checkUnsolicitedMsg` from inside the observer does. -/
def runObserver (nested : SWARM_M138 → Option (Bool × SWARM_M138)) :
    List UserCall → SWARM_M138 → Option SWARM_M138
  | [], s => some s
  | UserCall.other :: calls, s => runObserver nested calls s
  | UserCall.checkUnsolicitedMsg :: calls, s =>
    match nested s with
    | none => none
    | some (_, s1) => runObserver nested calls s1

/-- Modelled from the spec: the parse step of the Dispatcher: the line is classified by
the Frame Validator and, when its tag has an unsolicited category, decoded by the
parser of that category; `none` when the line is dropped. -/
def parseEvent (P : Protocol) (line : Line) : Option ModemEvent :=
  match validate P.checksum line with
  | Validation.tagged tag payload =>
    match unsolicitedCategory tag with
    | none => none
    | some c => if P.parses c payload then some ⟨c, payload⟩ else none
  | _ => none

/-- Modelled from the spec: `processUnsolicitedEvent`, declared in the header without a
body: the line is parsed and the observer registered for the category of the
event, if any, is invoked with it. The result tells whether an event was
dispatched. -/
def processUnsolicitedEvent (P : Protocol) (nested : SWARM_M138 → Option (Bool × SWARM_M138))
    (event : Line) (s : SWARM_M138) : Option (Bool × SWARM_M138) :=
  match parseEvent P event with
  | none => some (false, s)
  | some ev =>
    match s.callback ev.category with
    | none => some (false, s)
    | some observer =>
      match runObserver nested (observer ev)
          { s with dispatched := s.dispatched ++ [⟨event, ev⟩] } with
      | none => none
      | some s2 => some (true, s2)

/-- Modelled from the spec: the first pass of the Dispatcher: the backlog is drained,
oldest entry first. -/
def drainBacklog (P : Protocol) (nested : SWARM_M138 → Option (Bool × SWARM_M138)) :
    Nat → Bool → SWARM_M138 → Option (Bool × SWARM_M138)
  | 0, _, _ => none
  | fuel + 1, handled, s =>
    match takeOldest s with
    | none => some (handled, s)
    | some (line, s1) =>
      match processUnsolicitedEvent P nested line { s1 with _swarmRxBuffer := line } with
      | none => none
      | some (h, s2) => drainBacklog P nested fuel (handled || h) s2

/-- Modelled from the spec: the second pass of the Dispatcher: the Line Reader is
pulled until nothing is available. -/
def drainLineReader (P : Protocol) (T : Transport)
    (nested : SWARM_M138 → Option (Bool × SWARM_M138)) :
    Nat → Bool → SWARM_M138 → Option (Bool × SWARM_M138)
  | 0, _, _ => none
  | fuel + 1, handled, s =>
    match T.pollLine s.linesRead with
    | none => some (handled, { s with linesRead := s.linesRead + 1 })
    | some line =>
      match processUnsolicitedEvent P nested line
          { s with linesRead := s.linesRead + 1, _swarmRxBuffer := line } with
      | none => none
      | some (h, s1) => drainLineReader P T nested fuel (handled || h) s1

/-- The body of `checkUnsolicitedMsg` between setting and clearing the flag. -/
def pollBody (P : Protocol) (T : Transport) (nested : SWARM_M138 → Option (Bool × SWARM_M138))
    (fuel : Nat) (s : SWARM_M138) : Option (Bool × SWARM_M138) :=
  match drainBacklog P nested fuel false { s with _checkUnsolicitedMsgReentrant := true } with
  | none => none
  | some (h1, s1) =>
    match drainLineReader P T nested fuel h1 s1 with
    | none => none
    | some (h2, s2) => some (h2, { s2 with _checkUnsolicitedMsgReentrant := false })

/-- Modelled from the spec: `checkUnsolicitedMsg`, declared in the header without a
body. A call made while `_checkUnsolicitedMsgReentrant` is set is rejected;
otherwise the flag is set for the duration of the call, the backlog and then the
Line Reader are drained, and the flag is cleared. The result tells whether an
event was dispatched. The first argument bounds the rounds of every loop and the
depth of calls from observers; `none` means the bound was reached. -/
def checkUnsolicitedMsg (P : Protocol) (T : Transport) :
    Nat → SWARM_M138 → Option (Bool × SWARM_M138)
  | 0, _ => none
  | fuel + 1, s =>
    if s._checkUnsolicitedMsgReentrant then some (false, s)
    else pollBody P T (checkUnsolicitedMsg P T fuel) fuel s

/-! ## Packet lengths and the receive buffer (header lines 86 to 88 and 401) -/

/-- The maximum packet length, defined as binary bytes:
`#define SWARM_M138_MAX_PACKET_LENGTH_BYTES 192`. -/
def SWARM_M138_MAX_PACKET_LENGTH_BYTES : Nat := 192

/-- The maximum packet length, encoded as ASCII Hex:
`#define SWARM_M138_MAX_PACKET_LENGTH_HEX 384`. -/
def SWARM_M138_MAX_PACKET_LENGTH_HEX : Nat := 384

/-- The size of the receive buffer: `#define _RxBuffSize 512`. -/
def _RxBuffSize : Nat := 512

/-- Modelled from the spec: the payload as it is carried on the wire, two ASCII hex
characters per byte, high digit first; the header holds no encoder. -/
def asciiHexEncode : List Nat → List Char
  | [] => []
  | b :: rest => hexDigitChar (b / 16 % 16) :: hexDigitChar (b % 16) :: asciiHexEncode rest

/-- A line, its terminator included, can be stored in the receive buffer without
writing past its end. -/
def fitsRxBuffer (line : List Char) : Bool := decide (line.length ≤ _RxBuffSize)

/-- A line as the receive buffer has to hold it: everything that is not payload (the
tag, the comma-separated fields, the asterisk with the checksum and the
terminator) around the ASCII hex payload. -/
def framedLine (head payload tail : List Char) : List Char := head ++ payload ++ tail

/-! ## The modem status enumeration (header lines 238 to 250) -/

/-- The modem status, `Swarm_M138_Modem_Status_e`, enumerators in declaration order. -/
inductive Swarm_M138_Modem_Status_e
  | SWARM_M138_MODEM_STATUS_BOOT_ABORT
  | SWARM_M138_MODEM_STATUS_BOOT_POWERON
  | SWARM_M138_MODEM_STATUS_BOOT_RUNNING
  | SWARM_M138_MODEM_STATUS_BOOT_UPDATED
  | SWARM_M138_MODEM_STATUS_BOOT_VERSION
  | SWARM_M138_MODEM_STATUS_DATETIME
  | SWARM_M138_MODEM_STATUS_POSITION
  | SWARM_M138_MODEM_STATUS_DEBUG
  | SWARM_M138_MODEM_STATUS_ERROR
  deriving DecidableEq, Repr, Fintype

open Swarm_M138_Modem_Status_e

/-- The numeric value of a modem status under the C rule: the first enumerator is
given as `= 0`, every later one is its predecessor plus one. -/
def Swarm_M138_Modem_Status_e.value : Swarm_M138_Modem_Status_e → Nat
  | SWARM_M138_MODEM_STATUS_BOOT_ABORT => 0
  | SWARM_M138_MODEM_STATUS_BOOT_POWERON => 0 + 1
  | SWARM_M138_MODEM_STATUS_BOOT_RUNNING => 1 + 1
  | SWARM_M138_MODEM_STATUS_BOOT_UPDATED => 2 + 1
  | SWARM_M138_MODEM_STATUS_BOOT_VERSION => 3 + 1
  | SWARM_M138_MODEM_STATUS_DATETIME => 4 + 1
  | SWARM_M138_MODEM_STATUS_POSITION => 5 + 1
  | SWARM_M138_MODEM_STATUS_DEBUG => 6 + 1
  | SWARM_M138_MODEM_STATUS_ERROR => 7 + 1

/-- The status comes with text, after the enumerators' own comments: only
`DEBUG` ("Debug message (data - debug text)") and `ERROR` ("Error message
(data - error text)") name a text. -/
def Swarm_M138_Modem_Status_e.carriesText : Swarm_M138_Modem_Status_e → Bool
  | SWARM_M138_MODEM_STATUS_DEBUG => true
  | SWARM_M138_MODEM_STATUS_ERROR => true
  | _ => false

/-- The `data` argument of the modem status callback is NULL, after the comment on
`setModemStatusCallback`: "data will be NULL if status is <
SWARM_M138_MODEM_STATUS_DEBUG". -/
def modemStatusDataIsNull (status : Swarm_M138_Modem_Status_e) : Bool :=
  decide (status.value < SWARM_M138_MODEM_STATUS_DEBUG.value)

/-- The seven statuses said to come without text: the boot events, the first date and
time and the first position. -/
def statusesWithoutText : List Swarm_M138_Modem_Status_e :=
  [ SWARM_M138_MODEM_STATUS_BOOT_ABORT, SWARM_M138_MODEM_STATUS_BOOT_POWERON,
    SWARM_M138_MODEM_STATUS_BOOT_RUNNING, SWARM_M138_MODEM_STATUS_BOOT_UPDATED,
    SWARM_M138_MODEM_STATUS_BOOT_VERSION, SWARM_M138_MODEM_STATUS_DATETIME,
    SWARM_M138_MODEM_STATUS_POSITION ]

/-! ### Auxiliary definitions for the proofs -/

/-- What a rejected call of `checkUnsolicitedMsg` returns: `false` and the state as
it was. -/
def rejectNested (s : SWARM_M138) : Option (Bool × SWARM_M138) := some (false, s)

/-- The observer invocations a line gives rise to in a state: one when the line
parses to an event whose category has an observer, none otherwise. -/
def dispatchesOf (P : Protocol) (s : SWARM_M138) (line : Line) : List Dispatch :=
  match parseEvent P line with
  | none => []
  | some ev =>
    match s.callback ev.category with
    | none => []
    | some _ => [⟨line, ev⟩]

/-- The state with further observer invocations recorded. -/
def SWARM_M138.logged (s : SWARM_M138) (ds : List Dispatch) : SWARM_M138 :=
  { s with dispatched := s.dispatched ++ ds }

/-- A line with a recognized tag whose two hex digits after the asterisk differ from
the checksum recomputed over the bytes between the dollar sign and the asterisk. -/
def CorruptedChecksum (P : Protocol) (line : Line) : Prop :=
  (∃ tag, recognizedTag line = some tag) ∧
  ∃ body d1 d2 v, line = '$' :: (body ++ [ '*', d1, d2]) ∧ '*' ∉ body ∧
    hexByte d1 d2 = some v ∧ v ≠ P.checksum body

/-- A protocol instance: the NMEA checksum, parsers that accept every payload, a
backlog of four entries. -/
def exampleProtocol : Protocol := ⟨nmeaChecksum, fun _ _ => true, 4⟩

/-- A date and time line whose checksum digits are wrong: the checksum of `DT 1` is
not zero. -/
def corruptedLine : Line := "$DT 1*00".toList

/-- An unsolicited geospatial line with a valid checksum. -/
def lineA : Line := "$GN 1.5,2.5,3,4,5*18".toList

/-- The response to the date and time query, with a valid checksum. -/
def lineB : Line := "$DT 20220101120000,V*4B".toList

/-- An unsolicited power status line with a valid checksum. -/
def lineC : Line := "$PW 3.3,0,0,0,21.5*21".toList

/-- A transport on which A is pulled at the second pull, B at the fourth and C at the
fifth, nothing else is ever available, and ten milliseconds pass between pulls. -/
def exampleTransport : Transport :=
  ⟨fun k => if k = 1 then some lineA else if k = 3 then some lineB
      else if k = 4 then some lineC else none,
   fun k => 10 * k⟩

/-- An observer that calls `checkUnsolicitedMsg` from inside the callback. -/
def reentrantObserver : Observer := fun _ => [UserCall.checkUnsolicitedMsg, UserCall.other]

/-- An engine after construction with the same observer registered for geospatial
information and for the power status. -/
def exampleEngine : SWARM_M138 :=
  setPowerStatusCallback (setGeospatialInfoCallback SWARM_M138.new (some reentrantObserver))
    (some reentrantObserver)

/-- An engine whose backlog holds the unsolicited line A, as a command that was
waiting when A arrived leaves it. -/
def backlogEngine : SWARM_M138 :=
  { exampleEngine with _swarmBacklog := [⟨lineA, false⟩] }

/-! # Theorems -/

/-- C1: the 21 vendor codes take pairwise distinct numeric values, none of them
equals the value of ERROR, SUCCESS, TIMEOUT or INVALID_CHECKSUM, the numbering
is one-to-one, and the 25 enumerators take exactly the values 0..24. -/
theorem C1_vendor_codes_one_to_one :
    vendorErrorCodes.length = 21 ∧
    (vendorErrorCodes.map Swarm_M138_Error_e.value).Nodup ∧
    (∀ c ∈ vendorErrorCodes, ∀ r ∈ engineResults, c.value ≠ r.value) ∧
    Function.Injective Swarm_M138_Error_e.value ∧
    Fintype.card Swarm_M138_Error_e = 25 ∧
    (∀ n : Nat, (∃ e : Swarm_M138_Error_e, e.value = n) ↔ n < 25) := by
  refine ⟨by decide, by decide, by decide, ?_, by decide, ?_⟩
  · intro a b h
    cases a <;> cases b <;> first | rfl | (exact absurd h (by decide))
  · intro n
    constructor
    · rintro ⟨e, rfl⟩
      cases e <;> decide
    · intro h
      have : ∀ m : Fin 25, ∃ e : Swarm_M138_Error_e, e.value = m.val := by decide
      exact this ⟨n, h⟩

/-- C2: every declared command tag constant is one of the 17 tags the
specification lists, every listed tag is declared, and the 17 declared strings
are pairwise distinct. -/
theorem C2_command_tags_closed_set :
    (∀ t ∈ declaredCommandTags, t ∈ specTags) ∧
    (∀ t ∈ specTags, t ∈ declaredCommandTags) ∧
    declaredCommandTags.Nodup ∧
    declaredCommandTags.length = 17 ∧ specTags.length = 17 := by
  refine ⟨by decide, by decide, by decide, by decide, by decide⟩

/-- C3 (as stated, refuted): no enumerator of the result type stands for a
framing error, none stands for reentrancy, and the 26 kinds of the taxonomy cannot
be given pairwise distinct values among the 25 enumerators at all. -/
theorem C3_no_framing_or_reentrancy_value :
    (¬ ∃ e : Swarm_M138_Error_e, e.kind = some ErrorKind.FramingError) ∧
    (¬ ∃ e : Swarm_M138_Error_e, e.kind = some ErrorKind.Reentrancy) ∧
    ¬ ∃ f : ErrorKind → Swarm_M138_Error_e,
        ∀ a ∈ specErrorKinds, ∀ b ∈ specErrorKinds, f a = f b → a = b := by
  refine ⟨by decide, by decide, ?_⟩
  rintro ⟨f, hf⟩
  have hnd : specErrorKinds.Nodup := by decide
  have hmap : (specErrorKinds.map f).Nodup := by
    rw [List.nodup_map_iff_inj_on hnd]
    exact fun a ha b hb h => hf a ha b hb h
  have hle := hmap.length_le_card
  have hlen : (specErrorKinds.map f).length = 26 := by
    rw [List.length_map]; decide
  have hcard : Fintype.card Swarm_M138_Error_e = 25 := by decide
  omega

/-- C3 (amended): every kind of the taxonomy other than the framing error and
reentrancy, that is the communication error, the timeout, the invalid checksum
and each of the 21 vendor codes, has exactly one enumerator of the result type. -/
theorem C3_result_values_for_taxonomy (k : ErrorKind) (hk : k ∈ specErrorKinds)
    (hF : k ≠ ErrorKind.FramingError) (hR : k ≠ ErrorKind.Reentrancy) :
    ∃! e : Swarm_M138_Error_e, e.kind = some k := by
  have key : ∀ k ∈ specErrorKinds, k ≠ ErrorKind.FramingError → k ≠ ErrorKind.Reentrancy →
      ∃ e : Swarm_M138_Error_e, e.kind = some k := by decide
  obtain ⟨e, he⟩ := key k hk hF hR
  refine ⟨e, he, ?_⟩
  intro e2 he2
  have inj : ∀ a b : Swarm_M138_Error_e, a.kind ≠ none → a.kind = b.kind → a = b := by decide
  exact (inj e e2 (by rw [he]; exact Option.some_ne_none _) (by rw [he, he2])).symm

/-- Witness of `C3_result_values_for_taxonomy` at the timeout kind. -/
theorem C3_result_values_for_taxonomy_witness :
    ErrorKind.Timeout ∈ specErrorKinds ∧
    (∃! e : Swarm_M138_Error_e, e.kind = some ErrorKind.Timeout) :=
  ⟨by decide,
   C3_result_values_for_taxonomy ErrorKind.Timeout (by decide) (by decide) (by decide)⟩

/-! ## The re-entry guard -/

theorem logged_nil (s : SWARM_M138) : s.logged [] = s := by
  simp [SWARM_M138.logged]

/-- An observer run in a state with the flag set, where nested calls are rejected,
leaves the state as it is. -/
theorem runObserver_of_flag (nested : SWARM_M138 → Option (Bool × SWARM_M138))
    (hn : ∀ s, s._checkUnsolicitedMsgReentrant = true → nested s = some (false, s)) :
    ∀ (calls : List UserCall) (s : SWARM_M138), s._checkUnsolicitedMsgReentrant = true →
      runObserver nested calls s = some s := by
  intro calls
  induction calls with
  | nil => intro s _; rfl
  | cons c cs ih =>
    intro s hs
    cases c with
    | other => simpa [runObserver] using ih s hs
    | checkUnsolicitedMsg => simpa [runObserver, hn s hs] using ih s hs

/-- With the flag set, processing a line records its observer invocations and changes
nothing else. -/
theorem process_of_flag (P : Protocol) (nested : SWARM_M138 → Option (Bool × SWARM_M138))
    (hn : ∀ s, s._checkUnsolicitedMsgReentrant = true → nested s = some (false, s))
    (line : Line) (s : SWARM_M138) (hs : s._checkUnsolicitedMsgReentrant = true) :
    processUnsolicitedEvent P nested line s
      = some (!(dispatchesOf P s line).isEmpty, s.logged (dispatchesOf P s line)) := by
  unfold processUnsolicitedEvent dispatchesOf
  cases hp : parseEvent P line with
  | none => simp [logged_nil]
  | some ev =>
    dsimp only
    cases hc : s.callback ev.category with
    | none => simp [logged_nil]
    | some observer =>
      have h1 := runObserver_of_flag nested hn (observer ev)
        { s with dispatched := s.dispatched ++ [⟨line, ev⟩] } hs
      dsimp only
      rw [h1]
      simp [SWARM_M138.logged]

theorem takeOldest_spec (s s1 : SWARM_M138) (line : Line) (h : takeOldest s = some (line, s1)) :
    s1._checkUnsolicitedMsgReentrant = s._checkUnsolicitedMsgReentrant ∧
    s1.dispatched = s.dispatched ∧ s1.linesRead = s.linesRead ∧
    s1._swarmBacklog.length < s._swarmBacklog.length := by
  unfold takeOldest at h
  cases hb : s._swarmBacklog with
  | nil => simp [hb] at h
  | cons e rest =>
    simp [hb, pruneBacklog] at h
    rw [← h.2]
    refine ⟨rfl, rfl, rfl, ?_⟩
    simp only [List.length_cons]
    exact Nat.lt_succ_of_le (List.length_filter_le _ _)

theorem dispatchesOf_valid (P : Protocol) (s : SWARM_M138) (line : Line) (d : Dispatch)
    (hd : d ∈ dispatchesOf P s line) : d.line = line ∧ parseEvent P line = some d.event := by
  unfold dispatchesOf at hd
  cases hp : parseEvent P line with
  | none => simp [hp] at hd
  | some ev =>
    rw [hp] at hd
    dsimp only at hd
    cases hc : s.callback ev.category with
    | none => simp [hc] at hd
    | some o =>
      simp [hc] at hd
      subst hd
      exact ⟨rfl, rfl⟩

/-- With the flag set, the backlog pass does not depend on what nested calls would
do, as long as they are rejected. -/
theorem drainBacklog_of_flag (P : Protocol) (nested : SWARM_M138 → Option (Bool × SWARM_M138))
    (hn : ∀ s, s._checkUnsolicitedMsgReentrant = true → nested s = some (false, s)) :
    ∀ (fuel : Nat) (h : Bool) (s : SWARM_M138), s._checkUnsolicitedMsgReentrant = true →
      drainBacklog P nested fuel h s = drainBacklog P rejectNested fuel h s := by
  intro fuel
  induction fuel with
  | zero => intro h s _; rfl
  | succ n ih =>
    intro h s hs
    simp only [drainBacklog]
    cases ht : takeOldest s with
    | none => rfl
    | some r =>
      obtain ⟨line, s1⟩ := r
      have hf := (takeOldest_spec s s1 line ht).1
      have hs1 : ({ s1 with _swarmRxBuffer := line } : SWARM_M138)._checkUnsolicitedMsgReentrant
          = true := by simpa [hf] using hs
      dsimp only
      rw [process_of_flag P nested hn line _ hs1,
        process_of_flag P rejectNested (fun _ _ => rfl) line _ hs1]
      exact ih _ _ hs1

/-- With the flag set, the backlog pass keeps the flag and the position of the Line
Reader, and every observer invocation it adds is for a line that parses to the
event handed over. -/
theorem drainBacklog_inv (P : Protocol) :
    ∀ (fuel : Nat) (h : Bool) (s : SWARM_M138) (h2 : Bool) (s2 : SWARM_M138),
      s._checkUnsolicitedMsgReentrant = true →
      drainBacklog P rejectNested fuel h s = some (h2, s2) →
      s2._checkUnsolicitedMsgReentrant = true ∧ s2.linesRead = s.linesRead ∧
      ∃ ds, s2.dispatched = s.dispatched ++ ds ∧
        ∀ d ∈ ds, parseEvent P d.line = some d.event := by
  intro fuel
  induction fuel with
  | zero => intro h s h2 s2 _ hr; simp [drainBacklog] at hr
  | succ n ih =>
    intro h s h2 s2 hs hr
    simp only [drainBacklog] at hr
    cases ht : takeOldest s with
    | none =>
      simp [ht] at hr
      obtain ⟨_, rfl⟩ := hr
      exact ⟨hs, rfl, [], by simp, by simp⟩
    | some r =>
      obtain ⟨line, s1⟩ := r
      obtain ⟨hf, hd, hl, _⟩ := takeOldest_spec s s1 line ht
      have hs1 : ({ s1 with _swarmRxBuffer := line } : SWARM_M138)._checkUnsolicitedMsgReentrant
          = true := by simpa [hf] using hs
      rw [ht] at hr
      dsimp only at hr
      rw [process_of_flag P rejectNested (fun _ _ => rfl) line _ hs1] at hr
      dsimp only at hr
      obtain ⟨h3, h4, ds, h5, h6⟩ :=
        ih _ (SWARM_M138.logged { s1 with _swarmRxBuffer := line } _) _ _ hs1 hr
      refine ⟨h3, by rw [h4]; exact hl, ?_⟩
      refine ⟨dispatchesOf P { s1 with _swarmRxBuffer := line } line ++ ds, ?_, ?_⟩
      · rw [h5]; simp [SWARM_M138.logged, hd]
      · intro d hd2
        rcases List.mem_append.1 hd2 with hd3 | hd3
        · obtain ⟨e1, e2⟩ := dispatchesOf_valid P _ line d hd3
          rw [e1]; exact e2
        · exact h6 d hd3

/-- With the flag set, the backlog pass returns once it has one round per backlog entry
and one more. -/
theorem drainBacklog_returns (P : Protocol) :
    ∀ (fuel : Nat) (h : Bool) (s : SWARM_M138), s._checkUnsolicitedMsgReentrant = true →
      s._swarmBacklog.length < fuel →
      ∃ r, drainBacklog P rejectNested fuel h s = some r := by
  intro fuel
  induction fuel with
  | zero => intro h s _ hl; omega
  | succ n ih =>
    intro h s hs hl
    simp only [drainBacklog]
    cases ht : takeOldest s with
    | none => exact ⟨_, rfl⟩
    | some r =>
      obtain ⟨line, s1⟩ := r
      obtain ⟨hf, _, _, hlen⟩ := takeOldest_spec s s1 line ht
      have hs1 : ({ s1 with _swarmRxBuffer := line } : SWARM_M138)._checkUnsolicitedMsgReentrant
          = true := by simpa [hf] using hs
      dsimp only
      rw [process_of_flag P rejectNested (fun _ _ => rfl) line _ hs1]
      dsimp only
      exact ih _ (SWARM_M138.logged { s1 with _swarmRxBuffer := line } _) hs1
        (by show s1._swarmBacklog.length < n; omega)

/-- With the flag set, the Line Reader pass does not depend on what nested calls would
do, as long as they are rejected. -/
theorem drainLineReader_of_flag (P : Protocol) (T : Transport)
    (nested : SWARM_M138 → Option (Bool × SWARM_M138))
    (hn : ∀ s, s._checkUnsolicitedMsgReentrant = true → nested s = some (false, s)) :
    ∀ (fuel : Nat) (h : Bool) (s : SWARM_M138), s._checkUnsolicitedMsgReentrant = true →
      drainLineReader P T nested fuel h s = drainLineReader P T rejectNested fuel h s := by
  intro fuel
  induction fuel with
  | zero => intro h s _; rfl
  | succ n ih =>
    intro h s hs
    simp only [drainLineReader]
    cases ht : T.pollLine s.linesRead with
    | none => rfl
    | some line =>
      have hs1 : ({ s with linesRead := s.linesRead + 1, _swarmRxBuffer := line } :
          SWARM_M138)._checkUnsolicitedMsgReentrant = true := hs
      dsimp only
      rw [process_of_flag P nested hn line _ hs1,
        process_of_flag P rejectNested (fun _ _ => rfl) line _ hs1]
      exact ih _ _ hs1

/-- With the flag set, the Line Reader pass keeps the flag, and every observer
invocation it adds is for a line that parses to the event handed over. -/
theorem drainLineReader_inv (P : Protocol) (T : Transport) :
    ∀ (fuel : Nat) (h : Bool) (s : SWARM_M138) (h2 : Bool) (s2 : SWARM_M138),
      s._checkUnsolicitedMsgReentrant = true →
      drainLineReader P T rejectNested fuel h s = some (h2, s2) →
      s2._checkUnsolicitedMsgReentrant = true ∧
      ∃ ds, s2.dispatched = s.dispatched ++ ds ∧
        ∀ d ∈ ds, parseEvent P d.line = some d.event := by
  intro fuel
  induction fuel with
  | zero => intro h s h2 s2 _ hr; simp [drainLineReader] at hr
  | succ n ih =>
    intro h s h2 s2 hs hr
    simp only [drainLineReader] at hr
    cases ht : T.pollLine s.linesRead with
    | none =>
      simp [ht] at hr
      obtain ⟨_, rfl⟩ := hr
      exact ⟨hs, [], by simp, by simp⟩
    | some line =>
      have hs1 : ({ s with linesRead := s.linesRead + 1, _swarmRxBuffer := line } :
          SWARM_M138)._checkUnsolicitedMsgReentrant = true := hs
      rw [ht] at hr
      dsimp only at hr
      rw [process_of_flag P rejectNested (fun _ _ => rfl) line _ hs1] at hr
      dsimp only at hr
      obtain ⟨h3, ds, h5, h6⟩ :=
        ih _ (SWARM_M138.logged { s with linesRead := s.linesRead + 1, _swarmRxBuffer := line } _)
          _ _ hs1 hr
      refine ⟨h3, ?_⟩
      refine ⟨dispatchesOf P { s with linesRead := s.linesRead + 1, _swarmRxBuffer := line } line
        ++ ds, ?_, ?_⟩
      · rw [h5]; simp [SWARM_M138.logged]
      · intro d hd2
        rcases List.mem_append.1 hd2 with hd3 | hd3
        · obtain ⟨e1, e2⟩ := dispatchesOf_valid P _ line d hd3
          rw [e1]; exact e2
        · exact h6 d hd3

/-- With the flag set, the Line Reader pass returns once the Line Reader has nothing
available, given one round per pull. -/
theorem drainLineReader_returns (P : Protocol) (T : Transport) :
    ∀ (n fuel : Nat) (h : Bool) (s : SWARM_M138), s._checkUnsolicitedMsgReentrant = true →
      T.pollLine (s.linesRead + n) = none → n < fuel →
      ∃ r, drainLineReader P T rejectNested fuel h s = some r := by
  intro n
  induction n with
  | zero =>
    intro fuel h s _ hq hl
    obtain ⟨f, rfl⟩ : ∃ f, fuel = f + 1 := ⟨fuel - 1, by omega⟩
    simp only [drainLineReader]
    rw [Nat.add_zero] at hq
    rw [hq]
    exact ⟨_, rfl⟩
  | succ m ih =>
    intro fuel h s hs hq hl
    obtain ⟨f, rfl⟩ : ∃ f, fuel = f + 1 := ⟨fuel - 1, by omega⟩
    simp only [drainLineReader]
    cases ht : T.pollLine s.linesRead with
    | none => exact ⟨_, rfl⟩
    | some line =>
      have hs1 : ({ s with linesRead := s.linesRead + 1, _swarmRxBuffer := line } :
          SWARM_M138)._checkUnsolicitedMsgReentrant = true := hs
      dsimp only
      rw [process_of_flag P rejectNested (fun _ _ => rfl) line _ hs1]
      dsimp only
      refine ih f _
        (SWARM_M138.logged { s with linesRead := s.linesRead + 1, _swarmRxBuffer := line } _)
        hs1 ?_ (by omega)
      show T.pollLine (s.linesRead + 1 + m) = none
      rw [← hq]; congr 1; omega

/-- A call of `checkUnsolicitedMsg` that meets the flag set is rejected. -/
theorem checkUnsolicitedMsg_of_flag (P : Protocol) (T : Transport) (fuel : Nat)
    (s : SWARM_M138) (hs : s._checkUnsolicitedMsgReentrant = true) :
    checkUnsolicitedMsg P T (fuel + 1) s = some (false, s) := by
  simp [checkUnsolicitedMsg, hs]

/-- With the flag clear on entry, the body does not depend on what nested calls
would do, as long as they are rejected while the flag is set. -/
theorem pollBody_of_reject (P : Protocol) (T : Transport)
    (nested : SWARM_M138 → Option (Bool × SWARM_M138))
    (hn : ∀ s, s._checkUnsolicitedMsgReentrant = true → nested s = some (false, s))
    (fuel : Nat) (s : SWARM_M138) :
    pollBody P T nested fuel s = pollBody P T rejectNested fuel s := by
  unfold pollBody
  have hs1 : ({ s with _checkUnsolicitedMsgReentrant := true } :
      SWARM_M138)._checkUnsolicitedMsgReentrant = true := rfl
  rw [drainBacklog_of_flag P nested hn fuel false _ hs1]
  cases hb : drainBacklog P rejectNested fuel false
      { s with _checkUnsolicitedMsgReentrant := true } with
  | none => rfl
  | some r =>
    obtain ⟨h1, s1⟩ := r
    obtain ⟨hf, _⟩ := drainBacklog_inv P fuel false _ h1 s1 hs1 hb
    dsimp only
    rw [drainLineReader_of_flag P T nested hn fuel h1 s1 hf]

/-- A top-level call is the body run with every nested call rejected. -/
theorem checkUnsolicitedMsg_top (P : Protocol) (T : Transport) (fuel : Nat) (s : SWARM_M138)
    (hs : s._checkUnsolicitedMsgReentrant = false) :
    checkUnsolicitedMsg P T (fuel + 2) s = pollBody P T rejectNested (fuel + 1) s := by
  rw [checkUnsolicitedMsg]
  simp only [hs, Bool.false_eq_true, if_false]
  exact pollBody_of_reject P T _ (fun s1 h1 => checkUnsolicitedMsg_of_flag P T fuel s1 h1) _ s

/-- What a returning body leaves: the flag clear, and observer invocations added only
for lines that parse to the event handed over. -/
theorem pollBody_inv (P : Protocol) (T : Transport) (fuel : Nat) (s : SWARM_M138) (r : Bool)
    (s2 : SWARM_M138) (h : pollBody P T rejectNested fuel s = some (r, s2)) :
    s2._checkUnsolicitedMsgReentrant = false ∧
    ∃ ds, s2.dispatched = s.dispatched ++ ds ∧
      ∀ d ∈ ds, parseEvent P d.line = some d.event := by
  unfold pollBody at h
  have hs1 : ({ s with _checkUnsolicitedMsgReentrant := true } :
      SWARM_M138)._checkUnsolicitedMsgReentrant = true := rfl
  cases hb : drainBacklog P rejectNested fuel false
      { s with _checkUnsolicitedMsgReentrant := true } with
  | none => simp [hb] at h
  | some r1 =>
    obtain ⟨h1, s1⟩ := r1
    obtain ⟨hf, _, ds1, hd1, hv1⟩ := drainBacklog_inv P fuel false _ h1 s1 hs1 hb
    rw [hb] at h
    dsimp only at h
    cases hl : drainLineReader P T rejectNested fuel h1 s1 with
    | none => simp [hl] at h
    | some r2 =>
      obtain ⟨h2, s3⟩ := r2
      obtain ⟨_, ds2, hd2, hv2⟩ := drainLineReader_inv P T fuel h1 s1 h2 s3 hf hl
      rw [hl] at h
      simp only [Option.some.injEq, Prod.mk.injEq] at h
      obtain ⟨_, rfl⟩ := h
      refine ⟨rfl, ds1 ++ ds2, ?_, ?_⟩
      · show s3.dispatched = _
        rw [hd2, hd1]; simp
      · intro d hd
        rcases List.mem_append.1 hd with h3 | h3
        · exact hv1 d h3
        · exact hv2 d h3

/-! ## Lines with a corrupted checksum -/

theorem takeWhile_append_stop {α : Type} (p : α → Bool) (body rest : List α) (c : α)
    (hb : ∀ x ∈ body, p x = true) (hc : p c = false) :
    (body ++ c :: rest).takeWhile p = body := by
  induction body with
  | nil => simp [List.takeWhile, hc]
  | cons x xs ih =>
    have hx : p x = true := hb x (List.mem_cons_self _ _)
    simp only [List.cons_append, List.takeWhile_cons, hx, if_true]
    rw [ih (fun y hy => hb y (List.mem_cons_of_mem _ hy))]

theorem dropWhile_append_stop {α : Type} (p : α → Bool) (body rest : List α) (c : α)
    (hb : ∀ x ∈ body, p x = true) (hc : p c = false) :
    (body ++ c :: rest).dropWhile p = c :: rest := by
  induction body with
  | nil => simp [List.dropWhile, hc]
  | cons x xs ih =>
    have hx : p x = true := hb x (List.mem_cons_self _ _)
    simp only [List.cons_append, List.dropWhile_cons, hx, if_true]
    exact ih (fun y hy => hb y (List.mem_cons_of_mem _ hy))

/-- The Frame Validator reports a corrupted checksum as invalid. -/
theorem validate_corrupted (P : Protocol) (line : Line) (hc : CorruptedChecksum P line) :
    validate P.checksum line = Validation.checksumInvalid := by
  obtain ⟨⟨tag, htag⟩, body, d1, d2, v, hline, hstar, hv, hne⟩ := hc
  have hb : ∀ x ∈ body, (fun c : Char => c != '*') x = true := by
    intro x hx
    have : x ≠ '*' := fun e => hstar (e ▸ hx)
    simpa using this
  have h1 : checksumBody line = body := by
    unfold checksumBody
    rw [hline, List.tail_cons]
    exact takeWhile_append_stop _ body [d1, d2] '*' hb (by simp)
  have h2 : checksumField line = [ '*', d1, d2] := by
    unfold checksumField
    rw [hline, List.tail_cons]
    exact dropWhile_append_stop _ body [d1, d2] '*' hb (by simp)
  unfold validate
  rw [htag]
  dsimp only
  rw [h2, h1]
  dsimp only
  rw [hv]
  have : ¬ (some v = some (P.checksum body)) := fun e => hne (Option.some.inj e)
  simp [this]

theorem parseEvent_corrupted (P : Protocol) (line : Line) (hc : CorruptedChecksum P line) :
    parseEvent P line = none := by
  unfold parseEvent
  rw [validate_corrupted P line hc]

theorem correlate_corrupted (P : Protocol) (resp err : List Char) (line : Line)
    (hc : CorruptedChecksum P line) :
    correlate P resp err line = Correlation.checksumInvalid := by
  unfold correlate
  rw [validate_corrupted P line hc]

theorem answerResult_response (P : Protocol) (resp err : List Char) (line l : Line)
    (p : List Char) (h : (answerResult P resp err line).response = some (l, p)) :
    l = line ∧ correlate P resp err line = Correlation.response p := by
  unfold answerResult at h
  cases hc : correlate P resp err line <;> rw [hc] at h <;> simp at h
  exact ⟨h.1.symm, by rw [h.2]⟩

theorem offer_dispatched (P : Protocol) (line : Line) (s : SWARM_M138) :
    (offer P line s).dispatched = s.dispatched := by
  unfold offer
  split <;> rfl

/-- The polling loop invokes no observer, and a response it returns is a line the
Correlator classified as the response. -/
theorem waitLoop_inv (P : Protocol) (T : Transport) (resp err : List Char) (start timeout : Nat) :
    ∀ (fuel : Nat) (s : SWARM_M138) (r : CommandResult) (s2 : SWARM_M138),
      waitLoop P T resp err start timeout fuel s = some (r, s2) →
      s2.dispatched = s.dispatched ∧
      ∀ l p, r.response = some (l, p) → correlate P resp err l = Correlation.response p := by
  intro fuel
  induction fuel with
  | zero => intro s r s2 h; simp [waitLoop] at h
  | succ n ih =>
    intro s r s2 h
    rw [waitLoop] at h
    split at h
    · rename_i line backlog hm
      simp only [Option.some.injEq, Prod.mk.injEq] at h
      obtain ⟨rfl, rfl⟩ := h
      refine ⟨rfl, ?_⟩
      intro l p hr
      obtain ⟨rfl, h2⟩ := answerResult_response P resp err line l p hr
      exact h2
    · dsimp only at h
      split at h
      · split at h
        · simp only [Option.some.injEq, Prod.mk.injEq] at h
          obtain ⟨rfl, rfl⟩ := h
          exact ⟨rfl, by simp⟩
        · have h3 := ih _ _ _ h
          exact h3
      · rename_i line hl
        split at h
        · rename_i payload hc
          simp only [Option.some.injEq, Prod.mk.injEq] at h
          obtain ⟨rfl, rfl⟩ := h
          refine ⟨rfl, ?_⟩
          intro l p hr
          simp only [Option.some.injEq, Prod.mk.injEq] at hr
          obtain ⟨rfl, rfl⟩ := hr
          exact hc
        · simp only [Option.some.injEq, Prod.mk.injEq] at h
          obtain ⟨rfl, rfl⟩ := h
          exact ⟨rfl, by simp⟩
        · simp only [Option.some.injEq, Prod.mk.injEq] at h
          obtain ⟨rfl, rfl⟩ := h
          exact ⟨rfl, by simp⟩
        · split at h
          · simp only [Option.some.injEq, Prod.mk.injEq] at h
            obtain ⟨rfl, rfl⟩ := h
            exact ⟨offer_dispatched P line _, by simp⟩
          · obtain ⟨h1, h2⟩ := ih _ _ _ h
            exact ⟨by rw [h1]; exact offer_dispatched P line _, h2⟩
        · split at h
          · simp only [Option.some.injEq, Prod.mk.injEq] at h
            obtain ⟨rfl, rfl⟩ := h
            exact ⟨rfl, by simp⟩
          · have h3 := ih _ _ _ h
            exact h3

/-- Whatever the flag on entry, a returning call of `checkUnsolicitedMsg` adds
observer invocations only for lines that parse to the event handed over. -/
theorem checkUnsolicitedMsg_inv (P : Protocol) (T : Transport) (fuel : Nat) (s : SWARM_M138)
    (r : Bool) (s2 : SWARM_M138) (h : checkUnsolicitedMsg P T fuel s = some (r, s2)) :
    (s._checkUnsolicitedMsgReentrant = false → s2._checkUnsolicitedMsgReentrant = false) ∧
    ∃ ds, s2.dispatched = s.dispatched ++ ds ∧
      ∀ d ∈ ds, parseEvent P d.line = some d.event := by
  cases hf : s._checkUnsolicitedMsgReentrant with
  | true =>
    cases fuel with
    | zero => simp [checkUnsolicitedMsg] at h
    | succ n =>
      rw [checkUnsolicitedMsg_of_flag P T n s hf] at h
      simp only [Option.some.injEq, Prod.mk.injEq] at h
      obtain ⟨_, rfl⟩ := h
      exact ⟨fun h0 => by simp at h0, [], by simp, by simp⟩
  | false =>
    match fuel, h with
    | 0, h => simp [checkUnsolicitedMsg] at h
    | 1, h => simp [checkUnsolicitedMsg, hf, pollBody, drainBacklog] at h
    | n + 2, h =>
      rw [checkUnsolicitedMsg_top P T n s hf] at h
      obtain ⟨h1, h2⟩ := pollBody_inv P T (n + 1) s r s2 h
      exact ⟨fun _ => h1, h2⟩

/-- C4: the re-entry flag is false in the constructed state; a call that meets the
flag set (a nested call, for instance from an observer) is rejected: it returns
false and leaves the whole state, the receive, prune and backlog buffers and the
record of observer invocations included, as it was; a top-level call sets the flag
for its duration, so that it is the body run with every call from an observer
rejected; the flag is false again when a top-level call returns; and a top-level
call does return once the Line Reader has nothing available. -/
theorem C4_reentry_guard (P : Protocol) (T : Transport) :
    SWARM_M138.new._checkUnsolicitedMsgReentrant = false ∧
    (∀ (fuel : Nat) (s : SWARM_M138), s._checkUnsolicitedMsgReentrant = true →
      checkUnsolicitedMsg P T (fuel + 1) s = some (false, s)) ∧
    (∀ (fuel : Nat) (s : SWARM_M138), s._checkUnsolicitedMsgReentrant = false →
      checkUnsolicitedMsg P T (fuel + 2) s = pollBody P T rejectNested (fuel + 1) s) ∧
    (∀ (fuel : Nat) (s s2 : SWARM_M138) (r : Bool), s._checkUnsolicitedMsgReentrant = false →
      checkUnsolicitedMsg P T fuel s = some (r, s2) →
      s2._checkUnsolicitedMsgReentrant = false) ∧
    (∀ (s : SWARM_M138) (n fuel : Nat), s._checkUnsolicitedMsgReentrant = false →
      T.pollLine (s.linesRead + n) = none → s._swarmBacklog.length + n + 2 ≤ fuel →
      ∃ r s2, checkUnsolicitedMsg P T fuel s = some (r, s2) ∧
        s2._checkUnsolicitedMsgReentrant = false) := by
  refine ⟨rfl, fun fuel s hs => checkUnsolicitedMsg_of_flag P T fuel s hs,
    fun fuel s hs => checkUnsolicitedMsg_top P T fuel s hs,
    fun fuel s s2 r hs h => (checkUnsolicitedMsg_inv P T fuel s r s2 h).1 hs, ?_⟩
  intro s n fuel hs hq hfuel
  obtain ⟨f, rfl⟩ : ∃ f, fuel = f + 2 := ⟨fuel - 2, by omega⟩
  have hs1 : ({ s with _checkUnsolicitedMsgReentrant := true } :
      SWARM_M138)._checkUnsolicitedMsgReentrant = true := rfl
  obtain ⟨⟨h1, s1⟩, hb⟩ := drainBacklog_returns P (f + 1) false
    { s with _checkUnsolicitedMsgReentrant := true } hs1 (by show s._swarmBacklog.length < f + 1; omega)
  obtain ⟨hf1, hl1, _⟩ := drainBacklog_inv P (f + 1) false _ h1 s1 hs1 hb
  obtain ⟨⟨h2, s3⟩, hl⟩ := drainLineReader_returns P T n (f + 1) h1 s1 hf1
    (by rw [hl1]; exact hq) (by omega)
  refine ⟨h2, { s3 with _checkUnsolicitedMsgReentrant := false }, ?_, rfl⟩
  rw [checkUnsolicitedMsg_top P T f s hs]
  unfold pollBody
  rw [hb]
  dsimp only
  rw [hl]

/-- Witness of `C4_reentry_guard`: with one line in the backlog and an observer that
calls `checkUnsolicitedMsg` from inside the callback, the top-level call returns
with the flag clear, and the same call made while the flag is set is rejected. -/
theorem C4_reentry_guard_witness :
    (∃ r s2, checkUnsolicitedMsg exampleProtocol exampleTransport 5 backlogEngine = some (r, s2) ∧
      s2._checkUnsolicitedMsgReentrant = false) ∧
    checkUnsolicitedMsg exampleProtocol exampleTransport 5
        { backlogEngine with _checkUnsolicitedMsgReentrant := true }
      = some (false, { backlogEngine with _checkUnsolicitedMsgReentrant := true }) ∧
    (checkUnsolicitedMsg exampleProtocol exampleTransport 5 backlogEngine).map
        (fun r => (r.1, r.2.dispatched, r.2._swarmBacklog))
      = some (true, [⟨lineA, ⟨Category.Geospatial, " 1.5,2.5,3,4,5".toList⟩⟩], []) :=
  ⟨(C4_reentry_guard exampleProtocol exampleTransport).2.2.2.2 backlogEngine 0 5 rfl rfl
      (by decide),
   (C4_reentry_guard exampleProtocol exampleTransport).2.1 4 _ rfl,
   by decide⟩

/-- C5: a line with a recognized tag whose two hex digits after the asterisk differ
from the recomputed checksum is reported invalid by the Frame Validator; a command
that pulls it returns `SWARM_M138_ERROR_INVALID_CHECKSUM` without a payload; no
returning `sendCommandWithResponse` or `waitForResponse` hands it back as the
response or invokes an observer; and no returning `checkUnsolicitedMsg` invokes an
observer for it. -/
theorem C5_corrupted_checksum_not_dispatched (P : Protocol) (line : Line)
    (hc : CorruptedChecksum P line) :
    validate P.checksum line = Validation.checksumInvalid ∧
    (∀ (T : Transport) (command resp err : List Char) (t fuel : Nat) (s : SWARM_M138),
      markFirst (answers P resp err) s._swarmBacklog = none →
      T.pollLine s.linesRead = some line →
      ∃ s2, sendCommandWithResponse P T command resp err t (fuel + 1) s
        = some (⟨SWARM_M138_ERROR_INVALID_CHECKSUM, none⟩, s2)) ∧
    (∀ (T : Transport) (command resp err : List Char) (t fuel : Nat) (s : SWARM_M138)
      (r : CommandResult) (s2 : SWARM_M138),
      sendCommandWithResponse P T command resp err t fuel s = some (r, s2) →
      (∀ p, r.response ≠ some (line, p)) ∧ s2.dispatched = s.dispatched) ∧
    (∀ (T : Transport) (resp err : List Char) (t fuel : Nat) (s : SWARM_M138)
      (r : CommandResult) (s2 : SWARM_M138),
      waitForResponse P T resp err t fuel s = some (r, s2) →
      (∀ p, r.response ≠ some (line, p)) ∧ s2.dispatched = s.dispatched) ∧
    (∀ (T : Transport) (fuel : Nat) (s : SWARM_M138) (r : Bool) (s2 : SWARM_M138),
      checkUnsolicitedMsg P T fuel s = some (r, s2) →
      ∃ ds, s2.dispatched = s.dispatched ++ ds ∧ ∀ d ∈ ds, d.line ≠ line) := by
  have hcor : ∀ resp err p, correlate P resp err line ≠ Correlation.response p := by
    intro resp err p h
    rw [correlate_corrupted P resp err line hc] at h
    cases h
  refine ⟨validate_corrupted P line hc, ?_, ?_, ?_, ?_⟩
  · intro T command resp err t fuel s hm hl
    unfold sendCommandWithResponse
    dsimp only
    rw [waitLoop]
    have hm2 : markFirst (answers P resp err) (sendCommand P command s)._swarmBacklog = none := hm
    have hl2 : T.pollLine (sendCommand P command s).linesRead = some line := hl
    rw [hm2]
    dsimp only
    rw [hl2]
    dsimp only
    rw [correlate_corrupted P resp err line hc]
    exact ⟨_, rfl⟩
  · intro T command resp err t fuel s r s2 h
    obtain ⟨h1, h2⟩ := waitLoop_inv P T resp err _ _ fuel _ r s2 h
    exact ⟨fun p hp => hcor resp err p (h2 line p hp), h1⟩
  · intro T resp err t fuel s r s2 h
    obtain ⟨h1, h2⟩ := waitLoop_inv P T resp err _ _ fuel _ r s2 h
    exact ⟨fun p hp => hcor resp err p (h2 line p hp), h1⟩
  · intro T fuel s r s2 h
    obtain ⟨_, ds, h1, h2⟩ := checkUnsolicitedMsg_inv P T fuel s r s2 h
    refine ⟨ds, h1, ?_⟩
    intro d hd he
    have h3 := h2 d hd
    rw [he, parseEvent_corrupted P line hc] at h3
    cases h3

/-- Witness of `C5_corrupted_checksum_not_dispatched`: the line `$DT 1*00` under the
NMEA checksum. -/
theorem C5_corrupted_checksum_not_dispatched_witness :
    CorruptedChecksum exampleProtocol corruptedLine ∧
    validate exampleProtocol.checksum corruptedLine = Validation.checksumInvalid ∧
    (∀ (T : Transport) (fuel : Nat) (s : SWARM_M138) (r : Bool) (s2 : SWARM_M138),
      checkUnsolicitedMsg exampleProtocol T fuel s = some (r, s2) →
      ∃ ds, s2.dispatched = s.dispatched ++ ds ∧ ∀ d ∈ ds, d.line ≠ corruptedLine) :=
  have h : CorruptedChecksum exampleProtocol corruptedLine :=
    ⟨⟨"$DT", by decide⟩, "DT 1".toList, '0', '0', 0, by decide, by decide, by decide,
      by decide⟩
  ⟨h, (C5_corrupted_checksum_not_dispatched exampleProtocol corruptedLine h).1,
    (C5_corrupted_checksum_not_dispatched exampleProtocol corruptedLine h).2.2.2.2⟩

/-! ## Backlog ordering -/

/-- Rounds in which nothing is available and the deadline has not passed only move the
position of the Line Reader. -/
theorem waitLoop_skip (P : Protocol) (T : Transport) (resp err : List Char)
    (start timeout : Nat) :
    ∀ (n fuel : Nat) (s : SWARM_M138),
      markFirst (answers P resp err) s._swarmBacklog = none →
      (∀ k, k < n → T.pollLine (s.linesRead + k) = none ∧
        T.nowMillis (s.linesRead + k) - start ≤ timeout) →
      waitLoop P T resp err start timeout (fuel + n) s
        = waitLoop P T resp err start timeout fuel { s with linesRead := s.linesRead + n } := by
  intro n
  induction n with
  | zero => intro fuel s _ _; rfl
  | succ m ih =>
    intro fuel s hm hq
    have h0 := hq 0 (Nat.succ_pos m)
    rw [Nat.add_zero] at h0
    rw [show fuel + (m + 1) = (fuel + m) + 1 from rfl, waitLoop, hm]
    dsimp only
    rw [h0.1]
    dsimp only
    rw [if_neg (by omega)]
    rw [ih fuel { s with linesRead := s.linesRead + 1 } hm]
    · show waitLoop P T resp err start timeout fuel
        { s with linesRead := s.linesRead + 1 + m } = _
      rw [Nat.add_assoc, Nat.add_comm 1 m]
    · intro k hk
      have := hq (k + 1) (by omega)
      show T.pollLine (s.linesRead + 1 + k) = none ∧
        T.nowMillis (s.linesRead + 1 + k) - start ≤ timeout
      rw [Nat.add_assoc, Nat.add_comm 1 k]
      exact this

/-- A round that pulls an unsolicited line before the deadline stashes it in the
backlog and goes on. -/
theorem waitLoop_unsolicited (P : Protocol) (T : Transport) (resp err : List Char)
    (start timeout fuel : Nat) (s : SWARM_M138) (line : Line)
    (hm : markFirst (answers P resp err) s._swarmBacklog = none)
    (hl : T.pollLine s.linesRead = some line)
    (hc : correlate P resp err line = Correlation.unsolicited)
    (ht : T.nowMillis s.linesRead - start ≤ timeout) :
    waitLoop P T resp err start timeout (fuel + 1) s
      = waitLoop P T resp err start timeout fuel
          (offer P line { s with linesRead := s.linesRead + 1, _swarmRxBuffer := line }) := by
  rw [waitLoop, hm]
  dsimp only
  rw [hl]
  dsimp only
  rw [hc]
  dsimp only
  rw [if_neg (by omega)]

/-- A round that pulls the response succeeds with its payload. -/
theorem waitLoop_response (P : Protocol) (T : Transport) (resp err : List Char)
    (start timeout fuel : Nat) (s : SWARM_M138) (line : Line) (payload : List Char)
    (hm : markFirst (answers P resp err) s._swarmBacklog = none)
    (hl : T.pollLine s.linesRead = some line)
    (hc : correlate P resp err line = Correlation.response payload) :
    waitLoop P T resp err start timeout (fuel + 1) s
      = some (⟨SWARM_M138_ERROR_SUCCESS, some (line, payload)⟩,
          { s with linesRead := s.linesRead + 1, _swarmRxBuffer := line }) := by
  rw [waitLoop, hm]
  dsimp only
  rw [hl]
  dsimp only
  rw [hc]

theorem dispatchesOf_registered (P : Protocol) (s : SWARM_M138) (line : Line) (ev : ModemEvent)
    (observer : Observer) (hp : parseEvent P line = some ev)
    (hc : s.callback ev.category = some observer) :
    dispatchesOf P s line = [⟨line, ev⟩] := by
  unfold dispatchesOf
  rw [hp]
  dsimp only
  rw [hc]

theorem dispatchesOf_congr (P : Protocol) (s s2 : SWARM_M138) (line : Line)
    (h : ∀ c, s2.callback c = s.callback c) :
    dispatchesOf P s2 line = dispatchesOf P s line := by
  unfold dispatchesOf
  cases parseEvent P line with
  | none => rfl
  | some ev => dsimp only; rw [h]

/-- The backlog pass over a backlog of one entry, with the flag set. -/
theorem drainBacklog_single (P : Protocol) (fuel : Nat) (h : Bool) (s : SWARM_M138) (l : Line)
    (hs : s._checkUnsolicitedMsgReentrant = true) (hb : s._swarmBacklog = [⟨l, false⟩]) :
    drainBacklog P rejectNested (fuel + 2) h s
      = some (h || !(dispatchesOf P s l).isEmpty,
          SWARM_M138.logged { s with _swarmRxBuffer := l, _pruneBuffer := [], _swarmBacklog := [] }
            (dispatchesOf P s l)) := by
  have ht : takeOldest s
      = some (l, { s with _pruneBuffer := [], _swarmBacklog := [] }) := by
    unfold takeOldest
    rw [hb]
    rfl
  have hs1 : ({ s with _swarmRxBuffer := l, _pruneBuffer := [], _swarmBacklog := [] } :
      SWARM_M138)._checkUnsolicitedMsgReentrant = true := hs
  rw [drainBacklog, ht]
  dsimp only
  rw [process_of_flag P rejectNested (fun _ _ => rfl) l _ hs1]
  dsimp only
  rw [drainBacklog]
  have ht2 : takeOldest (SWARM_M138.logged
      { s with _swarmRxBuffer := l, _pruneBuffer := [], _swarmBacklog := [] }
      (dispatchesOf P { s with _swarmRxBuffer := l, _pruneBuffer := [], _swarmBacklog := [] } l))
      = none := rfl
  rw [ht2]
  dsimp only
  rw [dispatchesOf_congr P s { s with _swarmRxBuffer := l, _pruneBuffer := [], _swarmBacklog := [] }
    l (fun c => by cases c <;> rfl)]

/-- The Line Reader pass when one line is available, with the flag set. -/
theorem drainLineReader_single (P : Protocol) (T : Transport) (fuel : Nat) (h : Bool)
    (s : SWARM_M138) (l : Line)
    (hs : s._checkUnsolicitedMsgReentrant = true)
    (h0 : T.pollLine s.linesRead = some l) (h1 : T.pollLine (s.linesRead + 1) = none) :
    drainLineReader P T rejectNested (fuel + 2) h s
      = some (h || !(dispatchesOf P s l).isEmpty,
          SWARM_M138.logged { s with linesRead := s.linesRead + 1 + 1, _swarmRxBuffer := l }
            (dispatchesOf P s l)) := by
  have hs1 : ({ s with linesRead := s.linesRead + 1, _swarmRxBuffer := l } :
      SWARM_M138)._checkUnsolicitedMsgReentrant = true := hs
  rw [drainLineReader, h0]
  dsimp only
  rw [process_of_flag P rejectNested (fun _ _ => rfl) l _ hs1]
  dsimp only
  rw [drainLineReader]
  have h2 : T.pollLine (SWARM_M138.logged
      { s with linesRead := s.linesRead + 1, _swarmRxBuffer := l }
      (dispatchesOf P { s with linesRead := s.linesRead + 1, _swarmRxBuffer := l } l)).linesRead
      = none := h1
  rw [h2]
  dsimp only
  rw [dispatchesOf_congr P s { s with linesRead := s.linesRead + 1, _swarmRxBuffer := l }
    l (fun c => by cases c <;> rfl)]
  rfl

theorem offer_empty (P : Protocol) (line : Line) (s : SWARM_M138)
    (hcap : 0 < P.backlogCapacity) (hb : s._swarmBacklog = []) :
    offer P line s = { s with _swarmBacklog := [⟨line, false⟩] } := by
  unfold offer
  rw [hb]
  simp [hcap]

theorem markFirst_single (p : Line → Bool) (l : Line) (c : Bool) (h : p l = false) :
    markFirst p [⟨l, c⟩] = none := by
  simp [markFirst, h]

/-- C6: with the engine idle and the backlog empty, let an unsolicited line A, the
expected response B and an unsolicited line C be the only lines the Line Reader
hands over, in that order, A and B before the deadline and C right behind B, and
let observers be registered for the events of A and of C. Then the command
returns success with the payload of B and invokes no observer, and the next
`checkUnsolicitedMsg` invokes the observers for A and then for C, in that order,
and for nothing else. -/
theorem C6_backlog_ordering (P : Protocol) (T : Transport) (s : SWARM_M138)
    (command resp err : List Char) (timeout : Nat) (A B C : Line)
    (evA evC : ModemEvent) (payB : List Char) (obsA obsC : Observer) (i j : Nat)
    (hcap : 0 < P.backlogCapacity)
    (hidle : s._checkUnsolicitedMsgReentrant = false)
    (hempty : s._swarmBacklog = [])
    (hA : correlate P resp err A = Correlation.unsolicited)
    (hevA : parseEvent P A = some evA) (hobsA : s.callback evA.category = some obsA)
    (hB : correlate P resp err B = Correlation.response payB)
    (hevC : parseEvent P C = some evC) (hobsC : s.callback evC.category = some obsC)
    (hij : i < j)
    (hpulls : ∀ k, k ≤ j + 2 → T.pollLine (s.linesRead + k) =
      if k = i then some A else if k = j then some B else if k = j + 1 then some C else none)
    (hclock : ∀ k, k < j → T.nowMillis (s.linesRead + k) - T.nowMillis s.linesRead ≤ timeout) :
    ∃ s1 s2,
      (∀ fuel, j < fuel → sendCommandWithResponse P T command resp err timeout fuel s
          = some (⟨SWARM_M138_ERROR_SUCCESS, some (B, payB)⟩, s1)) ∧
      s1.dispatched = s.dispatched ∧
      (∀ fuel, 3 ≤ fuel → checkUnsolicitedMsg P T fuel s1 = some (true, s2)) ∧
      s2.dispatched = s.dispatched ++ [⟨A, evA⟩, ⟨C, evC⟩] ∧ s2._swarmBacklog = [] := by
  obtain ⟨b, rfl⟩ : ∃ b, j = i + 1 + b := ⟨j - i - 1, by omega⟩
  have hansA : answers P resp err A = false := by simp [answers, hA]
  -- the pulls, one by one
  have pNone1 : ∀ k, k < i → T.pollLine (s.linesRead + k) = none := by
    intro k hk
    rw [hpulls k (by omega)]
    simp [show k ≠ i by omega, show k ≠ i + 1 + b by omega, show k ≠ i + 1 + b + 1 by omega]
  have pA : T.pollLine (s.linesRead + i) = some A := by
    rw [hpulls i (by omega)]; simp
  have pNone2 : ∀ k, k < b → T.pollLine (s.linesRead + i + 1 + k) = none := by
    intro k hk
    rw [show s.linesRead + i + 1 + k = s.linesRead + (i + 1 + k) by omega,
      hpulls (i + 1 + k) (by omega)]
    simp [show i + 1 + k ≠ i by omega, show i + 1 + k ≠ i + 1 + b by omega,
      show i + 1 + k ≠ i + 1 + b + 1 by omega]
  have pB : T.pollLine (s.linesRead + i + 1 + b) = some B := by
    rw [show s.linesRead + i + 1 + b = s.linesRead + (i + 1 + b) by omega,
      hpulls (i + 1 + b) (by omega)]
    simp [show i + 1 + b ≠ i by omega]
  have pC : T.pollLine (s.linesRead + i + 1 + b + 1) = some C := by
    rw [show s.linesRead + i + 1 + b + 1 = s.linesRead + (i + 1 + b + 1) by omega,
      hpulls (i + 1 + b + 1) (by omega)]
    simp [show i + 1 + b + 1 ≠ i by omega]
  have pEnd : T.pollLine (s.linesRead + i + 1 + b + 1 + 1) = none := by
    rw [show s.linesRead + i + 1 + b + 1 + 1 = s.linesRead + (i + 1 + b + 2) by omega,
      hpulls (i + 1 + b + 2) (by omega)]
    simp [show i + 1 + b + 2 ≠ i by omega]
  -- the state the command returns in
  obtain ⟨s1, hs1⟩ : ∃ s1 : SWARM_M138, s1 = { sendCommand P command s with
      linesRead := s.linesRead + i + 1 + b + 1, _swarmRxBuffer := B,
      _swarmBacklog := [⟨A, false⟩] } := ⟨_, rfl⟩
  have hflag : s1._checkUnsolicitedMsgReentrant = false := by rw [hs1]; exact hidle
  have hback : s1._swarmBacklog = [⟨A, false⟩] := by rw [hs1]
  have hlines : s1.linesRead = s.linesRead + i + 1 + b + 1 := by rw [hs1]
  have hlog : s1.dispatched = s.dispatched := by rw [hs1]; rfl
  have hcb : ∀ c, s1.callback c = s.callback c := by
    intro c; rw [hs1]; cases c <;> rfl
  refine ⟨s1, SWARM_M138.logged
    { s1 with _checkUnsolicitedMsgReentrant := false, linesRead := s1.linesRead + 1 + 1,
              _swarmRxBuffer := C, _pruneBuffer := [], _swarmBacklog := [] }
    [⟨A, evA⟩, ⟨C, evC⟩], ?_, hlog, ?_, ?_, rfl⟩
  · intro fuel hfuel
    obtain ⟨f, rfl⟩ : ∃ f, fuel = f + 1 + b + 1 + i := ⟨fuel - (i + 1 + b) - 1, by omega⟩
    unfold sendCommandWithResponse
    show waitLoop P T resp err (T.nowMillis s.linesRead) timeout (f + 1 + b + 1 + i)
      (sendCommand P command s) = _
    rw [waitLoop_skip P T resp err (T.nowMillis s.linesRead) timeout i (f + 1 + b + 1)
      (sendCommand P command s)
      (by show markFirst _ s._swarmBacklog = none; rw [hempty]; rfl)
      (fun k hk => ⟨pNone1 k hk, hclock k (by omega)⟩)]
    rw [waitLoop_unsolicited P T resp err (T.nowMillis s.linesRead) timeout (f + 1 + b) _ A
      (by show markFirst _ s._swarmBacklog = none; rw [hempty]; rfl) pA hA
      (hclock i (by omega))]
    rw [offer_empty P A _ hcap ?hb]
    case hb => exact hempty
    rw [waitLoop_skip P T resp err (T.nowMillis s.linesRead) timeout b (f + 1) _
      (markFirst_single _ A false hansA)
      (fun k hk => ⟨pNone2 k hk, by
        have := hclock (i + 1 + k) (by omega)
        rw [show s.linesRead + (i + 1 + k) = s.linesRead + i + 1 + k by omega] at this
        exact this⟩)]
    rw [waitLoop_response P T resp err (T.nowMillis s.linesRead) timeout f _ B payB
      (markFirst_single _ A false hansA) pB hB, hs1]
    rfl
  · intro fuel hfuel
    obtain ⟨g, rfl⟩ : ∃ g, fuel = g + 1 + 2 := ⟨fuel - 3, by omega⟩
    rw [checkUnsolicitedMsg_top P T (g + 1) s1 hflag]
    unfold pollBody
    rw [drainBacklog_single P g false { s1 with _checkUnsolicitedMsgReentrant := true } A rfl
      hback]
    dsimp only
    rw [drainLineReader_single P T g _ _ C rfl (by rw [← pC, ← hlines]; rfl)
      (by rw [← pEnd, ← hlines]; rfl)]
    rw [dispatchesOf_registered P _ A evA obsA hevA
        (by rw [← hobsA, ← hcb]; cases evA.category <;> rfl),
      dispatchesOf_registered P _ C evC obsC hevC
        (by rw [← hobsC, ← hcb]; cases evC.category <;> rfl)]
    simp [SWARM_M138.logged]
  · show s1.dispatched ++ _ = _
    rw [hlog]

/-- Witness of `C6_backlog_ordering`: the date and time query on the example
transport, where a geospatial line precedes the response and a power status
line follows it. -/
theorem C6_backlog_ordering_witness :
    correlate exampleProtocol "$DT".toList "$DT ERR".toList lineA = Correlation.unsolicited ∧
    correlate exampleProtocol "$DT".toList "$DT ERR".toList lineB
      = Correlation.response " 20220101120000,V".toList ∧
    ∃ s1 s2,
      (∀ fuel, 3 < fuel →
        sendCommandWithResponse exampleProtocol exampleTransport "$DT @".toList "$DT".toList
          "$DT ERR".toList SWARM_M138_STANDARD_RESPONSE_TIMEOUT fuel exampleEngine
          = some (⟨SWARM_M138_ERROR_SUCCESS, some (lineB, " 20220101120000,V".toList)⟩, s1)) ∧
      s1.dispatched = exampleEngine.dispatched ∧
      (∀ fuel, 3 ≤ fuel → checkUnsolicitedMsg exampleProtocol exampleTransport fuel s1
          = some (true, s2)) ∧
      s2.dispatched = exampleEngine.dispatched
        ++ [⟨lineA, ⟨Category.Geospatial, " 1.5,2.5,3,4,5".toList⟩⟩,
            ⟨lineC, ⟨Category.PowerStatus, " 3.3,0,0,0,21.5".toList⟩⟩] ∧
      s2._swarmBacklog = [] :=
  ⟨by decide, by decide,
   C6_backlog_ordering exampleProtocol exampleTransport exampleEngine "$DT @".toList
    "$DT".toList "$DT ERR".toList SWARM_M138_STANDARD_RESPONSE_TIMEOUT lineA lineB lineC
    ⟨Category.Geospatial, " 1.5,2.5,3,4,5".toList⟩ ⟨Category.PowerStatus, " 3.3,0,0,0,21.5".toList⟩
    " 20220101120000,V".toList reentrantObserver reentrantObserver 1 3
    (by decide) rfl rfl (by decide) (by decide) rfl (by decide) (by decide) rfl (by decide)
    (fun k _ => by
      show exampleTransport.pollLine (0 + k) = _
      rw [Nat.zero_add]; rfl)
    (fun k hk => by
      show 10 * (0 + k) - 10 * 0 ≤ 1000
      omega)⟩

/-! ## The timeout boundary -/

/-- In the model of the engine, each setter replaces the observer of its own category
and leaves the other nine categories as they were. -/
theorem setters_replace_own_slot (s : SWARM_M138) (cb : Option Observer) (c : Category) :
    (setDateTimeCallback s cb).callback c
      = (if c = Category.DateTime then cb else s.callback c) ∧
    (setGpsJammingCallback s cb).callback c
      = (if c = Category.GpsJamming then cb else s.callback c) ∧
    (setGeospatialInfoCallback s cb).callback c
      = (if c = Category.Geospatial then cb else s.callback c) ∧
    (setGpsFixQualityCallback s cb).callback c
      = (if c = Category.GpsFixQuality then cb else s.callback c) ∧
    (setPowerStatusCallback s cb).callback c
      = (if c = Category.PowerStatus then cb else s.callback c) ∧
    (setReceiveMessageCallback s cb).callback c
      = (if c = Category.ReceiveMessage then cb else s.callback c) ∧
    (setReceiveTestCallback s cb).callback c
      = (if c = Category.ReceiveTest then cb else s.callback c) ∧
    (setSleepWakeCallback s cb).callback c
      = (if c = Category.SleepWake then cb else s.callback c) ∧
    (setModemStatusCallback s cb).callback c
      = (if c = Category.ModemStatus then cb else s.callback c) ∧
    (setTransmitDataCallback s cb).callback c
      = (if c = Category.TransmitData then cb else s.callback c) := by
  cases c <;> exact ⟨rfl, rfl, rfl, rfl, rfl, rfl, rfl, rfl, rfl, rfl⟩

/-- C8: the header declares ten setters but eleven callback members; the member of
`setDateTimeCallback`, `_swarmDateTimeCallback`, is declared twice, once with a
parameter that is not const and once with the const parameter of the setter,
while each of the other nine setters has exactly one member. -/
theorem C8_date_time_callback_declared_twice :
    callbackSetters.length = 10 ∧ callbackFields.length = 11 ∧
    callbackSetters.map (fun st => (st.name, (fieldsOf st).length))
      = [ ("setDateTimeCallback", 2), ("setGpsJammingCallback", 1),
          ("setGeospatialInfoCallback", 1), ("setGpsFixQualityCallback", 1),
          ("setPowerStatusCallback", 1), ("setReceiveMessageCallback", 1),
          ("setReceiveTestCallback", 1), ("setSleepWakeCallback", 1),
          ("setModemStatusCallback", 1), ("setTransmitDataCallback", 1) ] ∧
    callbackFields.filter (fun f => f.name = "_swarmDateTimeCallback")
      = [ ⟨"_swarmDateTimeCallback", [⟨"Swarm_M138_DateTimeData_t *", "dateTime"⟩]⟩,
          ⟨"_swarmDateTimeCallback", [⟨"const Swarm_M138_DateTimeData_t *", "dateTime"⟩]⟩ ] ∧
    (callbackFields.map (fun f => f.name)).dedup.length = 10 := by
  refine ⟨by decide, by decide, by decide, by decide, by decide⟩

/-- C9: the declared transmit operations are exactly the twelve variants, payload
Text or Binary, option none, Hold or Expire, without or with an application ID,
each declared once under the name of its variant, and none of them takes both a
hold duration and an expiry epoch. -/
theorem C9_hold_expiry_exclusive :
    transmitDeclarations.map Declaration.variant = transmitVariants.map some ∧
    transmitVariants.Nodup ∧
    (∀ p : TxPayload, ∀ o : TxOption, ∀ a : Bool, (p, o, a) ∈ transmitVariants) ∧
    transmitDeclarations.length = 12 ∧
    (∀ d ∈ transmitDeclarations, ¬ (d.acceptsHold = true ∧ d.acceptsExpiry = true)) := by
  refine ⟨by decide, by decide, ?_, by decide, by decide⟩
  intro p o a
  cases p <;> cases o <;> cases a <;> decide

/-- The valid application IDs 0 to 64999 and the reserved ones 65000 to 65535 are
disjoint and together are the values of a `uint16_t`. -/
theorem appID_ranges_partition (appID : Nat) :
    (validAppID appID = true ∨ reservedAppID appID = true ↔ appID < 65536) ∧
    ¬ (validAppID appID = true ∧ reservedAppID appID = true) := by
  unfold validAppID reservedAppID
  simp only [decide_eq_true_eq, Bool.and_eq_true]
  omega

/-! ## Packet lengths, modem status, tag table and receive buffer -/

theorem asciiHexEncode_length (payload : List Nat) :
    (asciiHexEncode payload).length = 2 * payload.length := by
  induction payload with
  | nil => rfl
  | cons b rest ih =>
    simp only [asciiHexEncode, List.length_cons, ih]
    omega

/-- C11: the maximum packet length is 192 binary bytes and 384 ASCII hex characters,
the hex limit is twice the binary limit, and a payload encoded at two hex
characters per byte fits the hex limit exactly when it has at most 192 bytes: a
payload of 193 bytes does not fit. -/
theorem C11_packet_length_limits :
    SWARM_M138_MAX_PACKET_LENGTH_BYTES = 192 ∧
    SWARM_M138_MAX_PACKET_LENGTH_HEX = 384 ∧
    SWARM_M138_MAX_PACKET_LENGTH_HEX = 2 * SWARM_M138_MAX_PACKET_LENGTH_BYTES ∧
    (∀ payload : List Nat,
      (asciiHexEncode payload).length ≤ SWARM_M138_MAX_PACKET_LENGTH_HEX
        ↔ payload.length ≤ SWARM_M138_MAX_PACKET_LENGTH_BYTES) ∧
    (∀ payload : List Nat, payload.length = 193 →
      SWARM_M138_MAX_PACKET_LENGTH_HEX < (asciiHexEncode payload).length) ∧
    (asciiHexEncode (List.replicate 192 255)).length = SWARM_M138_MAX_PACKET_LENGTH_HEX ∧
    (asciiHexEncode (List.replicate 193 255)).length = 386 := by
  refine ⟨rfl, rfl, rfl, ?_, ?_, ?_, ?_⟩
  · intro payload
    rw [asciiHexEncode_length]
    unfold SWARM_M138_MAX_PACKET_LENGTH_HEX SWARM_M138_MAX_PACKET_LENGTH_BYTES
    omega
  · intro payload h
    rw [asciiHexEncode_length, h]
    unfold SWARM_M138_MAX_PACKET_LENGTH_HEX
    omega
  · rw [asciiHexEncode_length, List.length_replicate]; rfl
  · rw [asciiHexEncode_length, List.length_replicate]

/-- C12: a modem status is numerically below `SWARM_M138_MODEM_STATUS_DEBUG`, the
condition under which the callback is handed NULL data, exactly when it is one of
BOOT_ABORT, BOOT_POWERON, BOOT_RUNNING, BOOT_UPDATED, BOOT_VERSION, DATETIME and
POSITION; the statuses that carry text are exactly DEBUG and ERROR, and they are
the ones whose data is not NULL. -/
theorem C12_modem_status_text (s : Swarm_M138_Modem_Status_e) :
    (s.value < SWARM_M138_MODEM_STATUS_DEBUG.value ↔ s ∈ statusesWithoutText) ∧
    (modemStatusDataIsNull s = true ↔ s ∈ statusesWithoutText) ∧
    (s.carriesText = true ↔
      s = SWARM_M138_MODEM_STATUS_DEBUG ∨ s = SWARM_M138_MODEM_STATUS_ERROR) ∧
    s.carriesText = !modemStatusDataIsNull s ∧
    statusesWithoutText.length = 7 ∧ Fintype.card Swarm_M138_Modem_Status_e = 9 := by
  cases s <;> decide

/-- C13: no command tag constant is a prefix of a different one, the five-character
`$M138` next to `$MM` and `$MT` included, so that at most one tag of the table is
a prefix of any given line. -/
theorem C13_tags_prefix_free :
    (∀ t1 ∈ declaredCommandTags, ∀ t2 ∈ declaredCommandTags, t1 ≠ t2 →
      t1.toList.isPrefixOf t2.toList = false) ∧
    SWARM_M138_COMMAND_MODEM_STAT.length = 5 ∧
    (∀ (line : List Char), ∀ t1 ∈ declaredCommandTags, ∀ t2 ∈ declaredCommandTags,
      t1.toList.isPrefixOf line = true → t2.toList.isPrefixOf line = true → t1 = t2) := by
  have hfree : ∀ t1 ∈ declaredCommandTags, ∀ t2 ∈ declaredCommandTags, t1 ≠ t2 →
      t1.toList.isPrefixOf t2.toList = false := by decide
  refine ⟨hfree, by decide, ?_⟩
  intro line t1 h1 t2 h2 p1 p2
  by_contra hne
  rw [List.isPrefixOf_iff_prefix] at p1 p2
  rcases List.prefix_or_prefix_of_prefix p1 p2 with h | h
  · have := hfree t1 h1 t2 h2 hne
    rw [← List.isPrefixOf_iff_prefix] at h
    rw [h] at this
    cases this
  · have := hfree t2 h2 t1 h1 (fun e => hne e.symm)
    rw [← List.isPrefixOf_iff_prefix] at h
    rw [h] at this
    cases this

/-- C14: the receive buffer of 512 bytes is strictly larger than the maximum ASCII hex
packet length of 384 and leaves 128 bytes; a line whose payload has at most 384
characters and whose tag, fields, checksum and terminator take at most 128
together fits the buffer, and with a full payload it fits only then. -/
theorem C14_rx_buffer_holds_max_packet :
    _RxBuffSize = 512 ∧
    SWARM_M138_MAX_PACKET_LENGTH_HEX < _RxBuffSize ∧
    _RxBuffSize - SWARM_M138_MAX_PACKET_LENGTH_HEX = 128 ∧
    (∀ head payload tail : List Char,
      payload.length ≤ SWARM_M138_MAX_PACKET_LENGTH_HEX → head.length + tail.length ≤ 128 →
      fitsRxBuffer (framedLine head payload tail) = true) ∧
    (∀ head payload tail : List Char,
      payload.length = SWARM_M138_MAX_PACKET_LENGTH_HEX →
      (fitsRxBuffer (framedLine head payload tail) = true ↔ head.length + tail.length ≤ 128)) := by
  refine ⟨rfl, by decide, by decide, ?_, ?_⟩
  · intro head payload tail hp ho
    unfold fitsRxBuffer framedLine
    simp only [List.length_append, decide_eq_true_eq]
    unfold _RxBuffSize
    unfold SWARM_M138_MAX_PACKET_LENGTH_HEX at hp
    omega
  · intro head payload tail hp
    unfold fitsRxBuffer framedLine
    simp only [List.length_append, decide_eq_true_eq]
    unfold _RxBuffSize
    unfold SWARM_M138_MAX_PACKET_LENGTH_HEX at hp
    omega

/-- Witness of `C13_tags_prefix_free`: a modem status line starts with `$M138` and so
with no other tag of the table, `$MM` and `$MT` included. -/
theorem C13_tags_prefix_free_witness :
    SWARM_M138_COMMAND_MODEM_STAT.toList.isPrefixOf "$M138 BOOT,RUNNING*2A".toList = true ∧
    ∀ t ∈ declaredCommandTags, t.toList.isPrefixOf "$M138 BOOT,RUNNING*2A".toList = true →
      t = SWARM_M138_COMMAND_MODEM_STAT :=
  ⟨by decide, fun t ht hp =>
    C13_tags_prefix_free.2.2 "$M138 BOOT,RUNNING*2A".toList t ht SWARM_M138_COMMAND_MODEM_STAT
      (by decide) hp (by decide)⟩

/-- Witness of `C14_rx_buffer_holds_max_packet`: a received message line with the four
numeric fields of the receive message callback at their widest, a payload of 192
bytes in ASCII hex, the checksum and the line terminator fits the receive
buffer. -/
theorem C14_rx_buffer_holds_max_packet_witness :
    (asciiHexEncode (List.replicate 192 255)).length ≤ SWARM_M138_MAX_PACKET_LENGTH_HEX ∧
    "$RD AI=65535,RSSI=-32768,SNR=-32768,FDEV=-32768,".toList.length + "*5A\r\n".toList.length
      ≤ 128 ∧
    fitsRxBuffer (framedLine "$RD AI=65535,RSSI=-32768,SNR=-32768,FDEV=-32768,".toList
      (asciiHexEncode (List.replicate 192 255)) "*5A\r\n".toList) = true :=
  ⟨by rw [asciiHexEncode_length, List.length_replicate]; decide, by decide,
   C14_rx_buffer_holds_max_packet.2.2.2.1 "$RD AI=65535,RSSI=-32768,SNR=-32768,FDEV=-32768,".toList
    (asciiHexEncode (List.replicate 192 255)) "*5A\r\n".toList
    (by rw [asciiHexEncode_length, List.length_replicate]; decide) (by decide)⟩

end Swarm
